import Mathlib

/-!
Verification development for the road-distance site-evaluation pipeline
(`app.py`).  The Python source is shallowly embedded: pure computations become
Lean functions over `ℚ`, external collaborators (the OSRM routing provider, the
Overpass highway locator, the Eurostat statistics fetcher, the shapely spatial
index, the city database) become explicit oracle parameters, and the mutable
state threaded through a batch run (the route cache, the API-call counter, the
Streamlit session) becomes explicit state passing.
-/

namespace RoadDistance

/-- A latitude/longitude pair.  The source manipulates Python floats; the
embedding uses exact rationals. -/
structure Coord where
  lat : ℚ
  lon : ℚ
deriving DecidableEq, Repr

/-- Result of one exact-routing call (`route_via_osrm`): road distance in km
and duration in minutes. -/
structure RouteVal where
  distance_km : ℚ
  duration_min : ℚ
deriving DecidableEq, Repr

/-- The exact routing provider (`route_via_osrm`): a deterministic oracle that
either returns a route or raises a routing error (modelled as `Except`). -/
abbrev Router := Coord → Coord → Except String RouteVal

/-- Rounding a coordinate to six decimal places, as the `"%.6f"` formatting in
`_route_key` does: the integer numerator after scaling by `10^6`. -/
def round6 (q : ℚ) : ℤ := round (q * 1000000)

/-- A route-cache key: the origin/destination pair normalized to fixed
precision, mirroring `_route_key`'s `"OSRM:%.6f,%.6f->%.6f,%.6f"` string. -/
structure RouteKey where
  olat : ℤ
  olon : ℤ
  dlat : ℤ
  dlon : ℤ
deriving DecidableEq, Repr

/-- `_route_key`: build the cache key from an origin/destination pair. -/
def routeKey (origin dest : Coord) : RouteKey :=
  ⟨round6 origin.lat, round6 origin.lon, round6 dest.lat, round6 dest.lon⟩

/-- The route cache: the Python dict `route_cache`, as an association list
(new entries are only ever inserted at a key that is absent, so the list never
holds two entries with the same key for lookup purposes). -/
abbrev RouteCache := List (RouteKey × RouteVal)

/-- Dictionary lookup `key in route_cache` / `route_cache[key]`. -/
def cacheLookup (c : RouteCache) (k : RouteKey) : Option RouteVal :=
  (c.find? (fun p => p.1 = k)).map (fun p => p.2)

deriving instance DecidableEq for Except

/-- Outcome of one `get_route` call: the returned (or raised) value, the cache
after the call, and how many times the routing provider was invoked. -/
structure RouteOut where
  result : Except String RouteVal
  cache : RouteCache
  providerCalls : ℕ
deriving DecidableEq, Repr

/-- `get_route` with an explicit cache: on a key hit return the stored value
(zero provider calls); on a miss invoke the provider, store the result only on
success, and re-raise the provider's error on failure (storing nothing). -/
def get_route (router : Router) (cache : RouteCache) (origin dest : Coord) :
    RouteOut :=
  let k := routeKey origin dest
  match cacheLookup cache k with
  | some v => ⟨.ok v, cache, 0⟩
  | none =>
    match router origin dest with
    | .ok v => ⟨.ok v, (k, v) :: cache, 1⟩
    | .error e => ⟨.error e, cache, 1⟩

/-- `get_route` as called (its `route_cache: Dict = None` default): a `none`
cache argument is replaced by a fresh empty dict for that single call. -/
def get_route_opt (router : Router) (cacheOpt : Option RouteCache)
    (origin dest : Coord) : RouteOut :=
  get_route router (cacheOpt.getD []) origin dest

/-- A highway/expressway access point as returned by
`find_nearest_highway_access` (the Overpass oracle): coordinates, straight-line
distance, and the optional name/ref/highway-type tags. -/
structure Access where
  coord : Coord
  straight : ℚ
  name : String
  ref : String
  htype : String
deriving DecidableEq, Repr

/-- Display name chosen by `get_highway_distance` for an access point. -/
def accessName (a : Access) : String :=
  if a.name ≠ "" then a.name
  else if a.ref ≠ "" then "Junction " ++ a.ref
  else "Highway Access (" ++ a.htype ++ ")"

/-- Outcome of `get_highway_distance`: the distance/time/name triple plus the
cache and provider-call accounting of the inner `get_route`. -/
structure HighwayOut where
  dist : Option ℚ
  time : Option ℚ
  hwName : Option String
  cache : RouteCache
  providerCalls : ℕ
deriving DecidableEq, Repr

/-- `get_highway_distance`: locate the nearest highway access (oracle
`findAccess`); if none is found return all-`none`; otherwise route to it via
`get_route` (again defaulting a `none` cache to a fresh empty dict), falling
back to the straight-line distance when the routing call raises. -/
def get_highway_distance (router : Router) (findAccess : Coord → Option Access)
    (cacheOpt : Option RouteCache) (site : Coord) : HighwayOut :=
  let cache := cacheOpt.getD []
  match findAccess site with
  | none => ⟨none, none, none, cache, 0⟩
  | some a =>
    let r := get_route router cache site a.coord
    match r.result with
    | .ok v => ⟨some v.distance_km, some v.duration_min, some (accessName a),
        r.cache, r.providerCalls⟩
    | .error _ => ⟨some a.straight, none, some "Highway Access",
        r.cache, r.providerCalls⟩

/-- Python's `int()` applied to a nonnegative-or-negative rational: truncation
toward zero. -/
def pyInt (q : ℚ) : ℤ := if 0 ≤ q then ⌊q⌋ else -⌊-q⌋

/-- One entry of the NUTS3 spatial index as seen by
`calculate_catchment_area`: the region's `NUTS_ID` and the centroid of its
geometry (the centroid computation itself is a shapely oracle). -/
structure NutsRegion where
  code : String
  centroid : Coord
deriving DecidableEq, Repr

/-- The catchment result dict built by `calculate_catchment_area`. -/
structure CatchmentOut where
  radius : ℚ
  totalPopulation : ℤ
  unemployedPersons : ℤ
  activePopulation : ℤ
  employedPersons : ℤ
  nuts3Regions : List String
  dataYear : ℤ
deriving DecidableEq, Repr

/-- Region selection in `calculate_catchment_area`: keep, in load order, each
region whose centroid is within the radius (great-circle oracle `hav`) and
whose `NUTS_ID` is non-empty, paired with its centroid distance. -/
def selectNearby (hav : Coord → Coord → ℚ) (regions : List NutsRegion)
    (site : Coord) (radius : ℚ) : List (String × ℚ) :=
  regions.filterMap (fun r =>
    let d := hav site r.centroid
    if d ≤ radius ∧ r.code ≠ "" then some (r.code, d) else none)

/-- Last-wins association lookup: the Python loop
`for row: map[row.geo] = row.value` keeps the last occurrence of a key. -/
def lookupLast (rows : List (String × ℚ)) (code : String) : Option ℚ :=
  (rows.reverse.find? (fun r => r.1 = code)).map (fun r => r.2)

/-- The year-fallback in `get_nuts3_population` / `get_nuts3_unemployed_persons`
/ `get_nuts3_active_population`: fetch the requested year; if the frame comes
back empty, fetch once more with the preceding year. -/
def fetchWithFallback (fetch : ℤ → List (String × ℚ)) (year : ℤ) :
    List (String × ℚ) :=
  let rows := fetch year
  if rows.isEmpty then fetch (year - 1) else rows

/-- One of the three Eurostat indicator maps (`population_map`,
`unemployed_map`, `active_map`): rows of the (possibly fallback) fetch, scaled
(`* 1000` for the thousand-persons datasets, `* 1` for population). -/
def nutsStat (fetch : ℤ → List (String × ℚ)) (year : ℤ) (scale : ℚ)
    (code : String) : Option ℚ :=
  (lookupLast (fetchWithFallback fetch year) code).map (fun v => v * scale)

/-- Spec-side per-region indicator value: a region missing the indicator
contributes zero. -/
def indicatorVal (stat : String → Option ℚ) (code : String) : ℚ :=
  (stat code).getD 0

/-- Spec-side per-region active-population value: the fetched value when
present, otherwise 65% of the region population when that is present,
otherwise zero. -/
def activeVal (pop act : String → Option ℚ) (code : String) : ℚ :=
  match act code with
  | some v => v
  | none =>
    match pop code with
    | some p => p * (65 / 100)
    | none => 0

/-- The distance-decay weight `1 / (1 + dist/10)` of one region. -/
def weightOf (d : ℚ) : ℚ := 1 / (1 + d / 10)

/-- The accumulation loop of `calculate_catchment_area` over the selected
regions: weighted population, unemployed and active sums plus the weight sum.
A region missing an indicator adds nothing to that sum; a region missing
active-population data but having population adds 65% of its population to the
active sum. -/
def catchAccum (pop unemp act : String → Option ℚ)
    (sel : List (String × ℚ)) : ℚ × ℚ × ℚ × ℚ :=
  sel.foldl (fun st cd =>
    let w := weightOf cd.2
    let tp := st.1 + (match pop cd.1 with | some v => v * w | none => 0)
    let tu := st.2.1 + (match unemp cd.1 with | some v => v * w | none => 0)
    let ta := st.2.2.1 + (match act cd.1 with
      | some v => v * w
      | none => match pop cd.1 with
        | some p => p * (65 / 100) * w
        | none => 0)
    (tp, tu, ta, st.2.2.2 + w)) (0, 0, 0, 0)

/-- The three raw indicator values of the catchment (the floats
`total_pop`, `total_unemployed`, `total_active` after the division by the
weight sum), for a non-empty selection. -/
def catchRaw (pop unemp act : String → Option ℚ) (sel : List (String × ℚ)) :
    ℚ × ℚ × ℚ :=
  let acc := catchAccum pop unemp act sel
  (acc.1 / acc.2.2.2, acc.2.1 / acc.2.2.2, acc.2.2.1 / acc.2.2.2)

/-- The effective region selection of `calculate_catchment_area`: the nearby
regions, or — when none qualify — the single containing region at distance
zero. -/
def effectiveSelection (hav : Coord → Coord → ℚ) (regions : List NutsRegion)
    (containLookup : Coord → Option String) (site : Coord) (radius : ℚ) :
    List (String × ℚ) :=
  let nearby0 := selectNearby hav regions site radius
  if nearby0.isEmpty then
    match containLookup site with
    | some c => if c ≠ "" then [(c, (0 : ℚ))] else []
    | none => []
  else nearby0

/-- `calculate_catchment_area`: select nearby regions by centroid distance
(falling back to the single containing region at distance 0 when none
qualify), fetch the three Eurostat indicators with the one-year fallback,
combine them with distance-decay weights divided by the weight sum, and store
the truncated integer results.  `data_year` is set to the requested year at
the top of the function. -/
def calculate_catchment_area (hav : Coord → Coord → ℚ)
    (regions : List NutsRegion) (containLookup : Coord → Option String)
    (fetchPop fetchUnemp fetchActive : ℤ → List (String × ℚ))
    (site : Coord) (radius : ℚ) (year : ℤ) : CatchmentOut :=
  let nearby := effectiveSelection hav regions containLookup site radius
  if nearby.isEmpty then
    ⟨radius, 0, 0, 0, 0, [], year⟩
  else
    let pop := nutsStat fetchPop year 1
    let unemp := nutsStat fetchUnemp year 1000
    let act := nutsStat fetchActive year 1000
    let raw := catchRaw pop unemp act nearby
    ⟨radius, pyInt raw.1, pyInt raw.2.1, pyInt raw.2.2,
      pyInt (raw.2.2 - raw.2.1), (nearby.map (fun cd => cd.1)).take 5, year⟩

/-- A facility row (airport or seaport): display name, optional code (IATA /
UNLOCODE), and coordinates. -/
structure Facility where
  name : String
  code : String
  lat : ℚ
  lon : ℚ
deriving DecidableEq, Repr

/-- The coordinate of a facility. -/
def fcoord (f : Facility) : Coord := ⟨f.lat, f.lon⟩

/-- `np.argsort` over a distance list: the indices `0..n-1` sorted by their
distance value (a sort by the keyed comparison; the count and the
smallest-distances-first property do not depend on tie order). -/
def argsort (ds : List ℚ) : List ℕ :=
  (List.range ds.length).mergeSort (fun i j => decide (ds.getD i 0 ≤ ds.getD j 0))

/-- The prefilter of `process_batch`
(`np.argsort(dists)[:min(topn, len(facs))]`): the indices of the
`min topn M` approximately-nearest facilities. -/
def prefilterIdx (hav : Coord → Coord → ℚ) (site : Coord)
    (facs : List Facility) (topn : ℕ) : List ℕ :=
  (argsort (facs.map (fun f => hav site (fcoord f)))).take (min topn facs.length)

/-- The candidate facilities the pipeline will attempt exact routing for, in
prefilter order. -/
def selectCandidates (hav : Coord → Coord → ℚ) (site : Coord)
    (facs : List Facility) (topn : ℕ) : List Facility :=
  (prefilterIdx hav site facs topn).filterMap (fun i => facs.get? i)

/-- The pacing test `if api_calls and pause_every and api_calls % pause_every == 0`
that guards each `time.sleep(pause_secs)` in `process_batch`. -/
def paceTest (pauseEvery apiCalls : ℕ) : Bool :=
  apiCalls ≠ 0 && pauseEvery ≠ 0 && apiCalls % pauseEvery == 0

/-- State and outputs of the per-candidate routing loop in `process_batch`:
the best facility found so far with its distance/time, the shared route cache,
the API-call counter, the error log entries appended, and — for each candidate
attempted, in order — whether a pacing pause happened before its call. -/
structure RCOut where
  best : Option (Facility × ℚ × ℚ)
  cache : RouteCache
  apiCalls : ℕ
  errors : List String
  pauses : List Bool
deriving DecidableEq, Repr

/-- One iteration of the candidate loop: pace, call `get_route`, then on
success increment `api_calls` and keep the candidate if strictly closer than
the best so far; on failure record a log entry and leave counter, cache and
best untouched. -/
def routeStep (router : Router) (pauseEvery : ℕ) (origin : Coord)
    (tag : String) (st : RCOut) (f : Facility) : RCOut :=
  let pause := paceTest pauseEvery st.apiCalls
  let r := get_route router st.cache origin (fcoord f)
  match r.result with
  | .ok v =>
    let newBest :=
      match st.best with
      | none => some (f, v.distance_km, v.duration_min)
      | some b => if v.distance_km < b.2.1
          then some (f, v.distance_km, v.duration_min) else some b
    ⟨newBest, r.cache, st.apiCalls + 1, st.errors, st.pauses ++ [pause]⟩
  | .error e =>
    ⟨st.best, st.cache, st.apiCalls,
      st.errors ++ [tag ++ " " ++ f.name ++ ": " ++ e], st.pauses ++ [pause]⟩

/-- The candidate loop from an arbitrary running state. -/
def routeFold (router : Router) (pauseEvery : ℕ) (origin : Coord)
    (tag : String) (st : RCOut) (cands : List Facility) : RCOut :=
  cands.foldl (routeStep router pauseEvery origin tag) st

/-- The candidate loop of `process_batch` over a list of prefiltered
candidates, from a given cache and counter. -/
def routeCandidates (router : Router) (pauseEvery : ℕ) (origin : Coord)
    (tag : String) (cands : List Facility) (cache0 : RouteCache)
    (api0 : ℕ) : RCOut :=
  routeFold router pauseEvery origin tag ⟨none, cache0, api0, [], []⟩ cands

/-- The whole nearest-facility resolution for one facility kind: prefilter by
great-circle distance, then run the routing loop over exactly the selected
candidates. -/
def nearestFacility (router : Router) (hav : Coord → Coord → ℚ)
    (pauseEvery : ℕ) (tag : String) (site : Coord) (facs : List Facility)
    (topn : ℕ) (cache0 : RouteCache) (api0 : ℕ) : RCOut :=
  routeCandidates router pauseEvery site tag
    (selectCandidates hav site facs topn) cache0 api0

/-- A region geometry as used by `_nuts_lookup_generic`: the embedding keeps
only the two point predicates the lookup consults (shapely oracles). -/
structure Geom where
  containsB : Coord → Bool
  intersectsB : Coord → Bool

/-- The properties record stored per NUTS region. -/
structure NutsProps where
  nutsId : String
  nameLatn : String
deriving DecidableEq, Repr

/-- The loaded NUTS index dict: the `ok` flag, the geometry and property lists
in load order, and the two STRtree queries (`tree.query(pt,
predicate="intersects")` on the point and on the epsilon-buffered point).  The
tree is an external structure; its answers arrive in the order it chooses. -/
structure NutsIndex where
  ok : Bool
  geoms : List Geom
  props : List NutsProps
  query : Coord → List ℕ
  queryBuffered : Coord → List ℕ

/-- The first loop of `_nuts_lookup_generic`: return the properties of the
first in-range index of the query result, with no further test. -/
def firstInRange (props : List NutsProps) (cands : List ℕ) : Option NutsProps :=
  (cands.find? (fun i => i < props.length)).bind (fun i => props.get? i)

/-- The containment test used by the buffered retry and the linear fallback:
`geom.contains(pt) or geom.intersects(pt)`. -/
def geomHit (g : Geom) (pt : Coord) : Bool :=
  g.containsB pt || g.intersectsB pt

/-- One probe of the containment loops: the properties of index `i` when its
geometry passes `geomHit`, else nothing. -/
def scanHit (idx : NutsIndex) (pt : Coord) (i : ℕ) : Option NutsProps :=
  match idx.geoms.get? i with
  | some g => if geomHit g pt then idx.props.get? i else none
  | none => none

/-- Scan of an index list: first index whose geometry passes `geomHit`,
yielding its properties. -/
def scanHits (idx : NutsIndex) (pt : Coord) (is : List ℕ) : Option NutsProps :=
  is.findSome? (scanHit idx pt)

/-- `_nuts_lookup_generic`: if the index failed to load return nothing; else
return the first in-range index of the intersects query; if the query returned
no candidates at all, retry with the buffered point and a containment test;
finally fall back to a linear scan of all geometries in load order. -/
def nutsLookupGeneric (idx : NutsIndex) (pt : Coord) : Option NutsProps :=
  if ¬ idx.ok then none
  else
    let cands := idx.query pt
    match firstInRange idx.props cands with
    | some p => some p
    | none =>
      let viaBuffer :=
        if cands.isEmpty then scanHits idx pt (idx.queryBuffered pt) else none
      match viaBuffer with
      | some p => some p
      | none => scanHits idx pt (List.range idx.geoms.length)

/-- A raw spreadsheet cell of a Latitude/Longitude column: numeric or not. -/
inductive Cell where
  | num (q : ℚ)
  | text (s : String)
deriving DecidableEq, Repr

/-- `pd.to_numeric(col, errors="coerce")` on one cell: non-numeric cells
become NaN, modelled as `none`. -/
def toNumeric : Cell → Option ℚ
  | .num q => some q
  | .text _ => none

/-- A raw row of the Sites frame as uploaded by the caller. -/
structure SiteRaw where
  projectId : String
  siteId : String
  name : String
  latCell : Cell
  lonCell : Cell
deriving DecidableEq, Repr

/-- A raw row of the Airports or Seaports frame. -/
structure FacRaw where
  name : String
  code : String
  latCell : Cell
  lonCell : Cell
deriving DecidableEq, Repr

/-- `_validate_latlon` on coerced coordinate columns: first check that every
value is numeric (finite), then the coordinate ranges; return the error
message, empty when valid. -/
def validateLatLon (rows : List (Option ℚ × Option ℚ)) : String :=
  if ¬ (rows.all (fun r => r.1.isSome && r.2.isSome)) then
    "Latitude/Longitude contain non-numeric values"
  else if ¬ (rows.all (fun r =>
      decide (-90 ≤ r.1.getD 0 ∧ r.1.getD 0 ≤ 90 ∧
        -180 ≤ r.2.getD 0 ∧ r.2.getD 0 ≤ 180))) then
    "Latitude must be in [-90,90] and Longitude in [-180,180]"
  else ""

/-- The `or`-chain over the three validation messages: first non-empty wins. -/
def firstErr (a b c : String) : String :=
  if a ≠ "" then a else if b ≠ "" then b else c

/-- `round(q, n)`: rounding to `n` decimal places. -/
def roundDp (n : ℕ) (q : ℚ) : ℚ := ((round (q * (10 : ℚ) ^ n) : ℤ) : ℚ) / (10 : ℚ) ^ n

/-- A city-database entry returned by `get_nearest_city`. -/
structure CityInfo where
  name : String
  pop : ℤ
  lat : ℚ
  lon : ℚ
deriving DecidableEq, Repr

/-- The administrative fields returned by `osm_reverse` (always a full dict;
missing pieces are empty strings). -/
structure OsmAdmin where
  municipality : String
  municipalityCode : String
  county : String
  countyCode : String
  voivodeship : String
  voivodeshipCode : String
deriving DecidableEq, Repr

/-- All external collaborators of `process_batch`, as oracle functions. -/
structure Env where
  router : Router
  hav : Coord → Coord → ℚ
  findAccess : Coord → Option Access
  hasCitiesDb : Bool
  cityLookup : Coord → Option CityInfo
  hasShapely : Bool
  nuts2 : Coord → Option NutsProps
  nuts3 : Coord → Option NutsProps
  catchRegions : List NutsRegion
  fetchPop : ℤ → List (String × ℚ)
  fetchUnemp : ℤ → List (String × ℚ)
  fetchActive : ℤ → List (String × ℚ)
  adminWoj : Option (Coord → Option (String × String))
  adminPow : Option (Coord → Option (String × String))
  adminGmi : Option (Coord → Option (String × String))
  osmRev : Coord → OsmAdmin

/-- The run options of `process_batch` (`pause_secs` and `enrich_nuts3` are
accepted but have no effect on the produced records). -/
structure Params where
  topn : ℕ
  includeRef : Bool
  refLat : ℚ
  refLon : ℚ
  refName : String
  pauseEvery : ℕ
  pauseSecs : ℚ
  enrichNuts3 : Bool
  enrichOsmAdmin : Bool
  includeHighway : Bool
  includeCatchment : Bool
  catchmentRadius : ℚ
deriving DecidableEq, Repr

/-- One output record of `process_batch` (`out_rec`): every enrichment field
starts as the missing marker `none`. -/
structure OutRec where
  projectId : String
  siteId : String
  siteName : String
  lat : ℚ
  lon : ℚ
  nearestAirport : Option String
  nearestAirportCode : Option String
  distAirport : Option ℚ
  timeAirport : Option ℚ
  nearestSeaport : Option String
  distSeaport : Option ℚ
  timeSeaport : Option ℚ
  nearestHighway : Option String
  distHighway : Option ℚ
  timeHighway : Option ℚ
  municipality : Option String
  municipalityCode : Option String
  county : Option String
  countyCode : Option String
  voivodeship : Option String
  voivodeshipCode : Option String
  nuts2Code : Option String
  nuts2Name : Option String
  nuts3Code : Option String
  nuts3Name : Option String
  catchPop : Option ℤ
  catchUnemp : Option ℤ
  catchActive : Option ℤ
  catchEmployed : Option ℤ
  catchNutsRegions : Option String
  distRef : Option ℚ
  timeRef : Option ℚ
  nearestCity : Option String
  cityPop : Option ℤ
  distCity : Option ℚ
  timeCity : Option ℚ
deriving DecidableEq, Repr

/-- One entry of a per-site log record. -/
inductive LogStep where
  | msg (s : String)
  | errorStep (s : String)
deriving DecidableEq, Repr

/-- Whether a log entry is an error entry. -/
def LogStep.isErr : LogStep → Bool
  | .msg _ => false
  | .errorStep _ => true

/-- The per-site log record (`log_rec`). -/
structure LogRec where
  site : String
  steps : List LogStep
deriving DecidableEq, Repr

/-- The freshly initialized `out_rec` for a site: identifiers and rounded
coordinates, all enrichment fields missing. -/
def initRec (s : SiteRaw) (slat slon : ℚ) : OutRec :=
  ⟨s.projectId.trim, s.siteId.trim, s.name.trim,
    roundDp 6 slat, roundDp 6 slon,
    none, none, none, none, none, none, none, none, none, none,
    none, none, none, none, none, none, none, none, none, none,
    none, none, none, none, none, none, none, none, none, none, none⟩

/-- Interpret a coerced facility row as a `Facility` (validation guarantees
the coordinates are numeric by the time this is used). -/
def facOfRaw (r : FacRaw) : Facility :=
  ⟨r.name, r.code, (toNumeric r.latCell).getD 0, (toNumeric r.lonCell).getD 0⟩

/-- Per-site mutable state while the steps run: the record built so far, the
log entries so far, the shared route cache and the API-call counter. -/
structure StepState where
  outRec : OutRec
  steps : List LogStep
  cache : RouteCache
  apiCalls : ℕ

/-- Write the best facility of the airport loop into the record. -/
def applyAirportBest (b : Option (Facility × ℚ × ℚ)) (r : OutRec) : OutRec :=
  match b with
  | some b => { r with
      nearestAirport := some b.1.name,
      nearestAirportCode := some b.1.code,
      distAirport := some (roundDp 1 b.2.1),
      timeAirport := some (roundDp 1 b.2.2) }
  | none => r

/-- Write the best facility of the seaport loop into the record. -/
def applySeaportBest (b : Option (Facility × ℚ × ℚ)) (r : OutRec) : OutRec :=
  match b with
  | some b => { r with
      nearestSeaport := some b.1.name,
      distSeaport := some (roundDp 1 b.2.1),
      timeSeaport := some (roundDp 1 b.2.2) }
  | none => r

/-- The nearest-airport step of `process_batch`. -/
def airportStep (env : Env) (p : Params) (airFacs : List Facility)
    (origin : Coord) (st : StepState) : StepState :=
  let out := nearestFacility env.router env.hav p.pauseEvery "Airport"
    origin airFacs p.topn st.cache st.apiCalls
  ⟨applyAirportBest out.best st.outRec,
    st.steps ++ out.errors.map LogStep.errorStep, out.cache, out.apiCalls⟩

/-- The nearest-seaport step of `process_batch`. -/
def seaportStep (env : Env) (p : Params) (seaFacs : List Facility)
    (origin : Coord) (st : StepState) : StepState :=
  let out := nearestFacility env.router env.hav p.pauseEvery "Seaport"
    origin seaFacs p.topn st.cache st.apiCalls
  ⟨applySeaportBest out.best st.outRec,
    st.steps ++ out.errors.map LogStep.errorStep, out.cache, out.apiCalls⟩

/-- The highway step: route to the nearest highway access through the shared
cache; `api_calls` is incremented after `get_highway_distance` returns, which
it always does (it catches routing failures internally). -/
def highwayStep (env : Env) (p : Params) (origin : Coord)
    (st : StepState) : StepState :=
  if p.includeHighway then
    let h := get_highway_distance env.router env.findAccess (some st.cache) origin
    let r :=
      match h.dist with
      | some d => { st.outRec with
          nearestHighway := h.hwName,
          distHighway := some (roundDp 1 d),
          timeHighway := h.time.map (roundDp 1) }
      | none => st.outRec
    ⟨r, st.steps, h.cache, st.apiCalls + 1⟩
  else st

/-- The reference-location step: one routed distance, logged on failure. -/
def refStep (env : Env) (p : Params) (origin : Coord)
    (st : StepState) : StepState :=
  if p.includeRef then
    let r := get_route env.router st.cache origin ⟨p.refLat, p.refLon⟩
    match r.result with
    | .ok v =>
      ⟨{ st.outRec with
          distRef := some (roundDp 1 v.distance_km),
          timeRef := some (roundDp 1 v.duration_min) },
        st.steps, r.cache, st.apiCalls + 1⟩
    | .error e =>
      ⟨st.outRec, st.steps ++ [LogStep.errorStep ("Reference: " ++ e)],
        r.cache, st.apiCalls⟩
  else st

/-- Write the city name and population into the record; a zero population is
falsy in the source and stays missing. -/
def applyCityInfo (c : CityInfo) (r : OutRec) : OutRec :=
  { r with
    nearestCity := some c.name,
    cityPop := if c.pop ≠ 0 then some c.pop else none }

/-- The nearest-city step: look the city up in the database; if found (with a
non-empty name) record name/population, then attempt the route to it, logging
a failure without discarding the name and population already written. -/
def cityStep (env : Env) (origin : Coord) (st : StepState) : StepState :=
  if env.hasCitiesDb then
    match env.cityLookup origin with
    | some c =>
      if c.name ≠ "" then
        let named := applyCityInfo c st.outRec
        let r := get_route env.router st.cache origin ⟨c.lat, c.lon⟩
        match r.result with
        | .ok v =>
          ⟨{ named with
              distCity := some (roundDp 1 v.distance_km),
              timeCity := some (roundDp 1 v.duration_min) },
            st.steps ++ [LogStep.msg ("Nearest city: " ++ c.name)],
            r.cache, st.apiCalls + 1⟩
        | .error e =>
          ⟨named, st.steps ++ [LogStep.errorStep ("Route to " ++ c.name ++ ": " ++ e)],
            r.cache, st.apiCalls⟩
      else
        ⟨st.outRec, st.steps ++ [LogStep.msg "No nearby city found within 200km"],
          st.cache, st.apiCalls⟩
    | none =>
      ⟨st.outRec, st.steps ++ [LogStep.msg "No nearby city found within 200km"],
        st.cache, st.apiCalls⟩
  else st

/-- The NUTS-2/NUTS-3 enrichment step (no state besides the record). -/
def nutsStep (env : Env) (origin : Coord) (r : OutRec) : OutRec :=
  if env.hasShapely then
    let rA :=
      match env.nuts2 origin with
      | some n => { r with nuts2Code := some n.nutsId, nuts2Name := some n.nameLatn }
      | none => r
    match env.nuts3 origin with
    | some n => { rA with nuts3Code := some n.nutsId, nuts3Name := some n.nameLatn }
    | none => rA
  else r

/-- The catchment step: fields are written only when the computed population
is positive (an all-zero result is the unavailability marker). -/
def catchmentStep (env : Env) (p : Params) (origin : Coord) (r : OutRec) :
    OutRec :=
  if p.includeCatchment then
    let c := calculate_catchment_area env.hav env.catchRegions
      (fun pt => (env.nuts3 pt).map (fun n => n.nutsId))
      env.fetchPop env.fetchUnemp env.fetchActive origin p.catchmentRadius 2023
    if 0 < c.totalPopulation then
      { r with
        catchPop := some c.totalPopulation,
        catchUnemp := some c.unemployedPersons,
        catchActive := some c.activePopulation,
        catchEmployed := some c.employedPersons,
        catchNutsRegions := some (String.intercalate ", " (c.nuts3Regions.take 3)) }
    else r
  else r

/-- The official administrative-boundary step; the flag reports whether any
of the three levels answered. -/
def adminStep (env : Env) (origin : Coord) (r : OutRec) : OutRec × Bool :=
  let wojHit := env.adminWoj.bind (fun f => f origin)
  let powHit := env.adminPow.bind (fun f => f origin)
  let gmiHit := env.adminGmi.bind (fun f => f origin)
  let r1 :=
    match wojHit with
    | some nc => { r with voivodeship := some nc.1, voivodeshipCode := some nc.2 }
    | none => r
  let r2 :=
    match powHit with
    | some nc => { r1 with county := some nc.1, countyCode := some nc.2 }
    | none => r1
  let r3 :=
    match gmiHit with
    | some nc => { r2 with municipality := some nc.1, municipalityCode := some nc.2 }
    | none => r2
  (r3, wojHit.isSome || powHit.isSome || gmiHit.isSome)

/-- The OSM reverse-geocoding fallback: each non-empty field overrides, an
empty field keeps what is already in the record. -/
def osmStep (env : Env) (p : Params) (haveOfficial : Bool) (origin : Coord)
    (r : OutRec) : OutRec :=
  if p.enrichOsmAdmin && !haveOfficial then
    let adm := env.osmRev origin
    { r with
      municipality := if adm.municipality ≠ "" then some adm.municipality else r.municipality,
      municipalityCode := if adm.municipalityCode ≠ "" then some adm.municipalityCode else r.municipalityCode,
      county := if adm.county ≠ "" then some adm.county else r.county,
      countyCode := if adm.countyCode ≠ "" then some adm.countyCode else r.countyCode,
      voivodeship := if adm.voivodeship ≠ "" then some adm.voivodeship else r.voivodeship,
      voivodeshipCode := if adm.voivodeshipCode ≠ "" then some adm.voivodeshipCode else r.voivodeshipCode }
  else r

/-- Result of processing one site: its output record and log, plus the
updated shared route cache and API-call counter. -/
structure SiteOut where
  outRec : OutRec
  log : LogRec
  cache : RouteCache
  apiCalls : ℕ

/-- The per-site body of `process_batch`, with the steps in source order:
nearest airport, nearest seaport, highway access, reference location, nearest
city, NUTS-2/3 lookup, catchment aggregation, official administrative
boundaries, OSM reverse-geocoding fallback.  Errors of one routing candidate
or one step are logged and the remaining steps still run.  The pacing sleeps
only consume wall-clock time and are not part of the state. -/
def processSite (env : Env) (p : Params) (airFacs seaFacs : List Facility)
    (s : SiteRaw) (slat slon : ℚ) (cache0 : RouteCache) (api0 : ℕ) : SiteOut :=
  let origin : Coord := ⟨slat, slon⟩
  let st0 : StepState := ⟨initRec s slat slon, [], cache0, api0⟩
  let st1 := airportStep env p airFacs origin st0
  let st2 := seaportStep env p seaFacs origin st1
  let st3 := highwayStep env p origin st2
  let st4 := refStep env p origin st3
  let st5 := cityStep env origin st4
  let r6 := nutsStep env origin st5.outRec
  let r7 := catchmentStep env p origin r6
  let ra := adminStep env origin r7
  let r8 := osmStep env p ra.2 origin ra.1
  ⟨r8, ⟨s.name.trim, st5.steps⟩, st5.cache, st5.apiCalls⟩

/-- The seven airport/seaport fields of a record, bundled for preservation
lemmas: the steps after the two facility loops never touch them. -/
def facilityFields (r : OutRec) :
    Option String × Option String × Option ℚ × Option ℚ ×
    Option String × Option ℚ × Option ℚ :=
  (r.nearestAirport, r.nearestAirportCode, r.distAirport, r.timeAirport,
   r.nearestSeaport, r.distSeaport, r.timeSeaport)

/-- The identity fields of a record (never touched by any enrichment step). -/
def idFields (r : OutRec) : String × String × String × ℚ × ℚ :=
  (r.projectId, r.siteId, r.siteName, r.lat, r.lon)

/-- The caller-visible state around a run: the three uploaded frames and the
session route cache. -/
structure World where
  sites : List SiteRaw
  airports : List FacRaw
  seaports : List FacRaw
  routeCache : RouteCache

/-- Fold state of the site loop. -/
structure BatchState where
  recs : List OutRec
  logs : List LogRec
  cache : RouteCache
  apiCalls : ℕ

/-- `process_batch`: copy the frames, coerce the coordinate columns on the
copies, validate (raising `ValueError`, modelled as `Except.error`, before any
site is processed), then process the sites strictly in input order, threading
the shared route cache and call counter; finally store the cache back into
the session.  The caller's frames are never touched. -/
def process_batch (env : Env) (p : Params) (w : World) :
    Except String (List OutRec × List LogRec × ℕ) × World :=
  let sitesC := w.sites.map (fun s => (s, toNumeric s.latCell, toNumeric s.lonCell))
  let airC := w.airports.map (fun r => (toNumeric r.latCell, toNumeric r.lonCell))
  let seaC := w.seaports.map (fun r => (toNumeric r.latCell, toNumeric r.lonCell))
  let err := firstErr
    (validateLatLon (sitesC.map (fun sc => (sc.2.1, sc.2.2))))
    (validateLatLon airC) (validateLatLon seaC)
  if err ≠ "" then (.error err, w)
  else
    let airFacs := w.airports.map facOfRaw
    let seaFacs := w.seaports.map facOfRaw
    let final := sitesC.foldl (fun st sc =>
      let r := processSite env p airFacs seaFacs sc.1
        (sc.2.1.getD 0) (sc.2.2.getD 0) st.cache st.apiCalls
      ⟨st.recs ++ [r.outRec], st.logs ++ [r.log], r.cache, r.apiCalls⟩)
      (⟨[], [], w.routeCache, 0⟩ : BatchState)
    (.ok (final.recs, final.logs, final.apiCalls),
      { w with routeCache := final.cache })

/-! ## Lemmas about the route cache -/

theorem cacheLookup_cons (k0 : RouteKey) (v0 : RouteVal) (c : RouteCache)
    (k : RouteKey) :
    cacheLookup ((k0, v0) :: c) k =
      if k0 = k then some v0 else cacheLookup c k := by
  by_cases h : k0 = k <;> simp [cacheLookup, List.find?, h]

/-- `C1`: for every origin/destination pair, a `get_route` call whose rounded
key misses the cache invokes the routing provider exactly once; on provider
success the result is stored under the key and returned, and any later call
whose arguments round to the same key returns the stored value with zero
provider calls; an entry already in the cache is never overwritten; on
provider failure nothing is stored, so a repeat call with the same key invokes
the provider again. -/
theorem get_route_memoization (router : Router) (cache : RouteCache)
    (o d : Coord) :
    (cacheLookup cache (routeKey o d) = none →
      (get_route router cache o d).providerCalls = 1 ∧
      (∀ v, router o d = .ok v →
        (get_route router cache o d).result = .ok v ∧
        (get_route router cache o d).cache = (routeKey o d, v) :: cache ∧
        (∀ o2 d2, routeKey o2 d2 = routeKey o d →
          (get_route router (get_route router cache o d).cache o2 d2).providerCalls = 0 ∧
          (get_route router (get_route router cache o d).cache o2 d2).result = .ok v)) ∧
      (∀ e, router o d = .error e →
        (get_route router cache o d).result = .error e ∧
        (get_route router cache o d).cache = cache ∧
        (get_route router (get_route router cache o d).cache o d).providerCalls = 1)) ∧
    (∀ v, cacheLookup cache (routeKey o d) = some v →
      (get_route router cache o d).providerCalls = 0 ∧
      (get_route router cache o d).result = .ok v ∧
      (get_route router cache o d).cache = cache) ∧
    (∀ k v, cacheLookup cache k = some v →
      cacheLookup (get_route router cache o d).cache k = some v) := by
  refine ⟨fun hmiss => ?_, fun v hhit => ?_, fun k v hk => ?_⟩
  · refine ⟨?_, fun v hok => ?_, fun e herr => ?_⟩
    · cases hr : router o d <;> simp [get_route, hmiss, hr]
    · refine ⟨by simp [get_route, hmiss, hok], by simp [get_route, hmiss, hok], ?_⟩
      intro o2 d2 hkey
      have hcache : (get_route router cache o d).cache = (routeKey o d, v) :: cache := by
        simp [get_route, hmiss, hok]
      rw [hcache]
      have hlook : cacheLookup ((routeKey o d, v) :: cache) (routeKey o2 d2) = some v := by
        rw [cacheLookup_cons, hkey]
        simp
      constructor <;> simp [get_route, hlook]
    · exact ⟨by simp [get_route, hmiss, herr], by simp [get_route, hmiss, herr],
        by simp [get_route, hmiss, herr]⟩
  · exact ⟨by simp [get_route, hhit], by simp [get_route, hhit],
      by simp [get_route, hhit]⟩
  · cases hlook : cacheLookup cache (routeKey o d) with
    | some w => simpa [get_route, hlook] using hk
    | none =>
      cases hr : router o d with
      | ok w =>
        have hc : (get_route router cache o d).cache = (routeKey o d, w) :: cache := by
          simp [get_route, hlook, hr]
        rw [hc, cacheLookup_cons]
        by_cases hke : routeKey o d = k
        · rw [hke] at hlook
          rw [hlook] at hk
          exact absurd hk (by simp)
        · simpa [hke] using hk
      | error e => simpa [get_route, hlook, hr] using hk

/-- Witness for `C1`: a concrete router and an empty cache; the first call
makes one provider call and stores the value, the second call with the same
key makes zero provider calls and returns the stored value; a failing router
leaves the cache empty and the retry calls the provider again. -/
theorem get_route_memoization_witness :
    (get_route (fun _ _ => .ok ⟨10, 20⟩) [] ⟨0, 0⟩ ⟨1, 1⟩).providerCalls = 1 ∧
    (get_route (fun _ _ => .ok ⟨10, 20⟩)
      (get_route (fun _ _ => .ok ⟨10, 20⟩) [] ⟨0, 0⟩ ⟨1, 1⟩).cache
      ⟨0, 0⟩ ⟨1, 1⟩).providerCalls = 0 ∧
    (get_route (fun _ _ => .ok ⟨10, 20⟩)
      (get_route (fun _ _ => .ok ⟨10, 20⟩) [] ⟨0, 0⟩ ⟨1, 1⟩).cache
      ⟨0, 0⟩ ⟨1, 1⟩).result = .ok ⟨10, 20⟩ ∧
    (get_route (fun _ _ => .error "no route") [] ⟨0, 0⟩ ⟨1, 1⟩).cache = [] ∧
    (get_route (fun _ _ => .error "no route")
      (get_route (fun _ _ => .error "no route") [] ⟨0, 0⟩ ⟨1, 1⟩).cache
      ⟨0, 0⟩ ⟨1, 1⟩).providerCalls = 1 := by
  have hmiss : cacheLookup [] (routeKey ⟨0, 0⟩ ⟨1, 1⟩) = none := rfl
  have h1 := (get_route_memoization (fun _ _ => .ok ⟨10, 20⟩) [] ⟨0, 0⟩ ⟨1, 1⟩).1 hmiss
  have h2 := (get_route_memoization (fun _ _ => .error "no route") [] ⟨0, 0⟩ ⟨1, 1⟩).1 hmiss
  have hok := h1.2.1 ⟨10, 20⟩ rfl
  have hrepeat := hok.2.2 ⟨0, 0⟩ ⟨1, 1⟩ rfl
  have herr := h2.2.2 "no route" rfl
  exact ⟨h1.1, hrepeat.1, hrepeat.2, herr.2.1, herr.2.2⟩

/-- `C9`: calling `get_route` (and `get_highway_distance`) with the cache
argument omitted or `None` uses a fresh empty dict for that single call: the
lookup can never hit, so the routing provider is invoked (once) on every such
call, and no memoization carries over — memoization requires the caller to
pass and reuse a shared cache, in which case a repeat of a successfully
routed key costs zero provider calls. -/
theorem get_route_fresh_cache_no_memo (router : Router)
    (findAccess : Coord → Option Access) (o d site : Coord) :
    (get_route_opt router none o d).providerCalls = 1 ∧
    (∀ a, findAccess site = some a →
      (get_highway_distance router findAccess none site).providerCalls = 1) ∧
    (∀ v, router o d = .ok v →
      (get_route router (get_route_opt router none o d).cache o d).providerCalls = 0) := by
  refine ⟨?_, fun a ha => ?_, fun v hok => ?_⟩
  · cases hr : router o d <;>
      simp [get_route_opt, get_route, cacheLookup, hr]
  · cases hr : router site a.coord <;>
      simp [get_highway_distance, ha, get_route, cacheLookup, hr]
  · have h1 : (get_route_opt router none o d).cache = [(routeKey o d, v)] := by
      simp [get_route_opt, get_route, cacheLookup, hok]
    rw [h1]
    have h2 : cacheLookup [(routeKey o d, v)] (routeKey o d) = some v := by
      simp [cacheLookup]
    simp [get_route, h2]

/-- Witness for `C9`: a concrete always-succeeding router with a found access
point; the `none`-cache calls each invoke the provider once, and sharing the
returned cache makes the repeat call free. -/
theorem get_route_fresh_cache_no_memo_witness :
    (get_route_opt (fun _ _ => .ok ⟨7, 9⟩) none ⟨0, 0⟩ ⟨1, 1⟩).providerCalls = 1 ∧
    (get_highway_distance (fun _ _ => .ok ⟨7, 9⟩)
      (fun _ => some ⟨⟨2, 2⟩, 5, "A4", "", "motorway_junction"⟩)
      none ⟨0, 0⟩).providerCalls = 1 ∧
    (get_route (fun _ _ => .ok ⟨7, 9⟩)
      (get_route_opt (fun _ _ => .ok ⟨7, 9⟩) none ⟨0, 0⟩ ⟨1, 1⟩).cache
      ⟨0, 0⟩ ⟨1, 1⟩).providerCalls = 0 := by
  have h := get_route_fresh_cache_no_memo (fun _ _ => .ok ⟨7, 9⟩)
    (fun _ => some ⟨⟨2, 2⟩, 5, "A4", "", "motorway_junction"⟩) ⟨0, 0⟩ ⟨1, 1⟩ ⟨0, 0⟩
  exact ⟨h.1, h.2.1 ⟨⟨2, 2⟩, 5, "A4", "", "motorway_junction"⟩ rfl, h.2.2 ⟨7, 9⟩ rfl⟩

/-! ## C3: the catchment indicators are distance-decay weighted means -/

theorem popTerm_eq (stat : String → Option ℚ) (c : String) (w : ℚ) :
    (match stat c with | some v => v * w | none => 0) = indicatorVal stat c * w := by
  cases h : stat c <;> simp [indicatorVal, h]

theorem activeTerm_eq (pop act : String → Option ℚ) (c : String) (w : ℚ) :
    (match act c with
      | some v => v * w
      | none => match pop c with
        | some p => p * (65 / 100) * w
        | none => 0) = activeVal pop act c * w := by
  cases h1 : act c <;> cases h2 : pop c <;> simp [activeVal, h1, h2]

theorem catchAccum_cons (pop unemp act : String → Option ℚ)
    (cd : String × ℚ) (sel : List (String × ℚ)) (a b c d : ℚ) :
    List.foldl (fun st cd =>
      let w := weightOf cd.2
      let tp := st.1 + (match pop cd.1 with | some v => v * w | none => 0)
      let tu := st.2.1 + (match unemp cd.1 with | some v => v * w | none => 0)
      let ta := st.2.2.1 + (match act cd.1 with
        | some v => v * w
        | none => match pop cd.1 with
          | some p => p * (65 / 100) * w
          | none => 0)
      (tp, tu, ta, st.2.2.2 + w)) (a, b, c, d) (cd :: sel) =
    List.foldl (fun st cd =>
      let w := weightOf cd.2
      let tp := st.1 + (match pop cd.1 with | some v => v * w | none => 0)
      let tu := st.2.1 + (match unemp cd.1 with | some v => v * w | none => 0)
      let ta := st.2.2.1 + (match act cd.1 with
        | some v => v * w
        | none => match pop cd.1 with
          | some p => p * (65 / 100) * w
          | none => 0)
      (tp, tu, ta, st.2.2.2 + w))
      (a + indicatorVal pop cd.1 * weightOf cd.2,
       b + indicatorVal unemp cd.1 * weightOf cd.2,
       c + activeVal pop act cd.1 * weightOf cd.2,
       d + weightOf cd.2) sel := by
  simp only [List.foldl_cons, popTerm_eq, activeTerm_eq]

theorem catchAccum_go (pop unemp act : String → Option ℚ)
    (sel : List (String × ℚ)) (a b c d : ℚ) :
    List.foldl (fun st cd =>
      let w := weightOf cd.2
      let tp := st.1 + (match pop cd.1 with | some v => v * w | none => 0)
      let tu := st.2.1 + (match unemp cd.1 with | some v => v * w | none => 0)
      let ta := st.2.2.1 + (match act cd.1 with
        | some v => v * w
        | none => match pop cd.1 with
          | some p => p * (65 / 100) * w
          | none => 0)
      (tp, tu, ta, st.2.2.2 + w)) (a, b, c, d) sel =
    (a + (sel.map (fun cd => indicatorVal pop cd.1 * weightOf cd.2)).sum,
     b + (sel.map (fun cd => indicatorVal unemp cd.1 * weightOf cd.2)).sum,
     c + (sel.map (fun cd => activeVal pop act cd.1 * weightOf cd.2)).sum,
     d + (sel.map (fun cd => weightOf cd.2)).sum) := by
  induction sel generalizing a b c d with
  | nil => simp
  | cons hd tl ih =>
    rw [catchAccum_cons, ih]
    simp [add_assoc]

/-- The accumulation loop computes exactly the four weighted sums. -/
theorem catchAccum_eq_sums (pop unemp act : String → Option ℚ)
    (sel : List (String × ℚ)) :
    catchAccum pop unemp act sel =
    ((sel.map (fun cd => indicatorVal pop cd.1 * weightOf cd.2)).sum,
     (sel.map (fun cd => indicatorVal unemp cd.1 * weightOf cd.2)).sum,
     (sel.map (fun cd => activeVal pop act cd.1 * weightOf cd.2)).sum,
     (sel.map (fun cd => weightOf cd.2)).sum) := by
  have h := catchAccum_go pop unemp act sel 0 0 0 0
  simpa [catchAccum] using h

/-- `C3`: for every selection of catchment regions with centroid distances
`d i`, each raw indicator computed by `calculate_catchment_area` equals the
weighted mean `(sum of w i * value i) / (sum of w i)` with `w i = 1/(1+d i/10)`,
where a region missing the indicator contributes zero to the numerator while
its weight still counts in the denominator, and for active population a
region missing active data but having population contributes 65% of its
population; the stored result fields are the integer truncations of these
weighted means. -/
theorem catchment_weighted_mean (hav : Coord → Coord → ℚ)
    (regions : List NutsRegion) (containLookup : Coord → Option String)
    (fetchPop fetchUnemp fetchActive : ℤ → List (String × ℚ))
    (site : Coord) (radius : ℚ) (year : ℤ)
    (sel : List (String × ℚ)) (pop unemp act : String → Option ℚ)
    (hsel : sel = effectiveSelection hav regions containLookup site radius)
    (hpop : pop = nutsStat fetchPop year 1)
    (hunemp : unemp = nutsStat fetchUnemp year 1000)
    (hact : act = nutsStat fetchActive year 1000)
    (hne : sel ≠ []) :
    (catchRaw pop unemp act sel).1 =
      (sel.map (fun cd => weightOf cd.2 * indicatorVal pop cd.1)).sum /
        (sel.map (fun cd => weightOf cd.2)).sum ∧
    (catchRaw pop unemp act sel).2.1 =
      (sel.map (fun cd => weightOf cd.2 * indicatorVal unemp cd.1)).sum /
        (sel.map (fun cd => weightOf cd.2)).sum ∧
    (catchRaw pop unemp act sel).2.2 =
      (sel.map (fun cd => weightOf cd.2 * activeVal pop act cd.1)).sum /
        (sel.map (fun cd => weightOf cd.2)).sum ∧
    (calculate_catchment_area hav regions containLookup fetchPop fetchUnemp
      fetchActive site radius year).totalPopulation =
      pyInt (catchRaw pop unemp act sel).1 ∧
    (calculate_catchment_area hav regions containLookup fetchPop fetchUnemp
      fetchActive site radius year).unemployedPersons =
      pyInt (catchRaw pop unemp act sel).2.1 ∧
    (calculate_catchment_area hav regions containLookup fetchPop fetchUnemp
      fetchActive site radius year).activePopulation =
      pyInt (catchRaw pop unemp act sel).2.2 := by
  have hacc := catchAccum_eq_sums pop unemp act sel
  have hisEmpty : sel.isEmpty = false := by
    cases sel with
    | nil => exact absurd rfl hne
    | cons a l => rfl
  refine ⟨?_, ?_, ?_, ?_, ?_, ?_⟩
  · simp only [catchRaw, hacc]
    congr 1
    exact congrArg List.sum (List.map_congr_left (fun (cd : String × ℚ) _ =>
      mul_comm (indicatorVal pop cd.1) (weightOf cd.2)))
  · simp only [catchRaw, hacc]
    congr 1
    exact congrArg List.sum (List.map_congr_left (fun (cd : String × ℚ) _ =>
      mul_comm (indicatorVal unemp cd.1) (weightOf cd.2)))
  · simp only [catchRaw, hacc]
    congr 1
    exact congrArg List.sum (List.map_congr_left (fun (cd : String × ℚ) _ =>
      mul_comm (activeVal pop act cd.1) (weightOf cd.2)))
  all_goals
    simp only [calculate_catchment_area, ← hsel, ← hpop, ← hunemp, ← hact,
      hisEmpty, Bool.false_eq_true, if_false]

/-- Witness for `C3`: the two-region scenario (distances 0 km and 10 km,
populations 100000 and 50000, unemployed 5000 and 2000, active data absent),
instantiating the weighted-mean theorem; the resulting fields are
83333 (population), 4000 (unemployed) and 54166 (active via the 65%
fallback). -/
theorem catchment_weighted_mean_witness :
    ((catchRaw (nutsStat (fun y => if y = 2023 then [("A", 100000), ("B", 50000)] else []) 2023 1)
        (nutsStat (fun y => if y = 2023 then [("A", 5), ("B", 2)] else []) 2023 1000)
        (nutsStat (fun _ => []) 2023 1000) [("A", 0), ("B", 10)]).1 =
      ([("A", (0 : ℚ)), ("B", 10)].map (fun cd => weightOf cd.2 *
        indicatorVal (nutsStat (fun y => if y = 2023 then [("A", 100000), ("B", 50000)] else []) 2023 1) cd.1)).sum /
      ([("A", (0 : ℚ)), ("B", 10)].map (fun cd => weightOf cd.2)).sum) ∧
    (calculate_catchment_area (fun _ c => if c = ⟨0, 0⟩ then 0 else 10)
      [⟨"A", ⟨0, 0⟩⟩, ⟨"B", ⟨1, 0⟩⟩] (fun _ => none)
      (fun y => if y = 2023 then [("A", 100000), ("B", 50000)] else [])
      (fun y => if y = 2023 then [("A", 5), ("B", 2)] else [])
      (fun _ => []) ⟨50, 10⟩ 50 2023).totalPopulation =
      pyInt (catchRaw (nutsStat (fun y => if y = 2023 then [("A", 100000), ("B", 50000)] else []) 2023 1)
        (nutsStat (fun y => if y = 2023 then [("A", 5), ("B", 2)] else []) 2023 1000)
        (nutsStat (fun _ => []) 2023 1000) [("A", 0), ("B", 10)]).1 ∧
    (calculate_catchment_area (fun _ c => if c = ⟨0, 0⟩ then 0 else 10)
      [⟨"A", ⟨0, 0⟩⟩, ⟨"B", ⟨1, 0⟩⟩] (fun _ => none)
      (fun y => if y = 2023 then [("A", 100000), ("B", 50000)] else [])
      (fun y => if y = 2023 then [("A", 5), ("B", 2)] else [])
      (fun _ => []) ⟨50, 10⟩ 50 2023).totalPopulation = 83333 ∧
    (calculate_catchment_area (fun _ c => if c = ⟨0, 0⟩ then 0 else 10)
      [⟨"A", ⟨0, 0⟩⟩, ⟨"B", ⟨1, 0⟩⟩] (fun _ => none)
      (fun y => if y = 2023 then [("A", 100000), ("B", 50000)] else [])
      (fun y => if y = 2023 then [("A", 5), ("B", 2)] else [])
      (fun _ => []) ⟨50, 10⟩ 50 2023).unemployedPersons = 4000 ∧
    (calculate_catchment_area (fun _ c => if c = ⟨0, 0⟩ then 0 else 10)
      [⟨"A", ⟨0, 0⟩⟩, ⟨"B", ⟨1, 0⟩⟩] (fun _ => none)
      (fun y => if y = 2023 then [("A", 100000), ("B", 50000)] else [])
      (fun y => if y = 2023 then [("A", 5), ("B", 2)] else [])
      (fun _ => []) ⟨50, 10⟩ 50 2023).activePopulation = 54166 := by
  have hsel : ([("A", (0 : ℚ)), ("B", 10)] : List (String × ℚ)) =
      effectiveSelection (fun _ c => if c = ⟨0, 0⟩ then 0 else 10)
        [⟨"A", ⟨0, 0⟩⟩, ⟨"B", ⟨1, 0⟩⟩] (fun _ => none) ⟨50, 10⟩ 50 := by
    simp +decide only [effectiveSelection, selectNearby, List.filterMap, List.isEmpty]
  have h := catchment_weighted_mean (fun _ c => if c = ⟨0, 0⟩ then 0 else 10)
    [⟨"A", ⟨0, 0⟩⟩, ⟨"B", ⟨1, 0⟩⟩] (fun _ => none)
    (fun y => if y = 2023 then [("A", 100000), ("B", 50000)] else [])
    (fun y => if y = 2023 then [("A", 5), ("B", 2)] else [])
    (fun _ => []) ⟨50, 10⟩ 50 2023
    [("A", 0), ("B", 10)]
    (nutsStat (fun y => if y = 2023 then [("A", 100000), ("B", 50000)] else []) 2023 1)
    (nutsStat (fun y => if y = 2023 then [("A", 5), ("B", 2)] else []) 2023 1000)
    (nutsStat (fun _ => []) 2023 1000)
    hsel rfl rfl rfl (by simp)
  refine ⟨h.1, h.2.2.2.1, ?_, ?_, ?_⟩
  all_goals
    simp +decide only [calculate_catchment_area, effectiveSelection, selectNearby,
      catchRaw, catchAccum, nutsStat, fetchWithFallback, lookupLast, weightOf, pyInt,
      List.filterMap, List.find?, List.foldl, List.isEmpty, List.reverse,
      List.reverseAux, Option.map, Function.comp]
  all_goals norm_num

/-! ## C6: the year fallback and the `data_year` field -/

/-- Counterexample for `C6`: requested year 2023 has no population rows and
the preceding year does, so the fallback supplies the data (total population
100000 comes from the 2022 rows), yet the result's year field still reads
2023, not 2022 as the claim requires. -/
theorem catchment_data_year_counterexample :
    ((fun y => if y = (2022 : ℤ) then [(("PL51" : String), (100000 : ℚ))] else []) 2023).isEmpty = true ∧
    (calculate_catchment_area (fun _ _ => 0) [⟨"PL51", ⟨0, 0⟩⟩] (fun _ => none)
      (fun y => if y = 2022 then [("PL51", 100000)] else [])
      (fun _ => []) (fun _ => []) ⟨51, 17⟩ 50 2023).totalPopulation = 100000 ∧
    (calculate_catchment_area (fun _ _ => 0) [⟨"PL51", ⟨0, 0⟩⟩] (fun _ => none)
      (fun y => if y = 2022 then [("PL51", 100000)] else [])
      (fun _ => []) (fun _ => []) ⟨51, 17⟩ 50 2023).dataYear = 2023 ∧
    (calculate_catchment_area (fun _ _ => 0) [⟨"PL51", ⟨0, 0⟩⟩] (fun _ => none)
      (fun y => if y = 2022 then [("PL51", 100000)] else [])
      (fun _ => []) (fun _ => []) ⟨51, 17⟩ 50 2023).dataYear ≠ 2022 := by
  refine ⟨rfl, ?_, ?_, ?_⟩
  all_goals
    simp +decide only [calculate_catchment_area, effectiveSelection, selectNearby,
      catchRaw, catchAccum, nutsStat, fetchWithFallback, lookupLast, weightOf, pyInt,
      List.filterMap, List.find?, List.foldl, List.isEmpty, List.reverse,
      List.reverseAux, Option.map, Function.comp]
  all_goals norm_num

/-- `C6` amended: each indicator fetch is retried exactly once with the
preceding year when the requested year returns no rows (and not retried
otherwise), but the catchment result's `data_year` field always records the
requested year — it is never updated to the year actually used. -/
theorem catchment_data_year_amended (hav : Coord → Coord → ℚ)
    (regions : List NutsRegion) (containLookup : Coord → Option String)
    (fetchPop fetchUnemp fetchActive : ℤ → List (String × ℚ))
    (site : Coord) (radius : ℚ) (year : ℤ)
    (fetch : ℤ → List (String × ℚ)) :
    (calculate_catchment_area hav regions containLookup fetchPop fetchUnemp
      fetchActive site radius year).dataYear = year ∧
    ((fetch year).isEmpty = true → fetchWithFallback fetch year = fetch (year - 1)) ∧
    ((fetch year).isEmpty = false → fetchWithFallback fetch year = fetch year) := by
  refine ⟨?_, fun h => ?_, fun h => ?_⟩
  · by_cases hemp :
      (effectiveSelection hav regions containLookup site radius).isEmpty <;>
      simp [calculate_catchment_area, hemp]
  · simp [fetchWithFallback, h]
  · simp [fetchWithFallback, h]

/-- Witness for `C6` amended: a concrete fetch that is empty at 2023 and one
that is not. -/
theorem catchment_data_year_amended_witness :
    (calculate_catchment_area (fun _ _ => 0) [⟨"PL51", ⟨0, 0⟩⟩] (fun _ => none)
      (fun y => if y = 2022 then [("PL51", 100000)] else [])
      (fun _ => []) (fun _ => []) ⟨51, 17⟩ 50 2023).dataYear = 2023 ∧
    fetchWithFallback (fun y => if y = (2022 : ℤ) then [(("PL51" : String), (100000 : ℚ))] else []) 2023 =
      (fun y => if y = (2022 : ℤ) then [(("PL51" : String), (100000 : ℚ))] else []) 2022 ∧
    fetchWithFallback (fun _ => [(("PL51" : String), (7 : ℚ))]) 2023 =
      [(("PL51" : String), (7 : ℚ))] := by
  have h1 := catchment_data_year_amended (fun _ _ => 0) [⟨"PL51", ⟨0, 0⟩⟩]
    (fun _ => none) (fun y => if y = 2022 then [("PL51", 100000)] else [])
    (fun _ => []) (fun _ => []) ⟨51, 17⟩ 50 2023
    (fun y => if y = (2022 : ℤ) then [(("PL51" : String), (100000 : ℚ))] else [])
  have h2 := catchment_data_year_amended (fun _ _ => 0) [⟨"PL51", ⟨0, 0⟩⟩]
    (fun _ => none) (fun y => if y = 2022 then [("PL51", 100000)] else [])
    (fun _ => []) (fun _ => []) ⟨51, 17⟩ 50 2023
    (fun _ => [(("PL51" : String), (7 : ℚ))])
  refine ⟨h1.1, ?_, h2.2.2 rfl⟩
  have := h1.2.1 (by decide)
  simpa using this

/-! ## C7: the employed-persons field -/

/-- Counterexample for `C7`: one region at distance zero, raw unemployed mean
1.7 and raw active mean 2.5; the reported fields are active 2 and unemployed
1, but the employed field is `int(2.5 - 1.7) = 0`, not `2 - 1 = 1` as the
claim (difference of the reported integer fields) requires. -/
theorem catchment_employed_counterexample :
    (calculate_catchment_area (fun _ _ => 0) [⟨"A", ⟨0, 0⟩⟩] (fun _ => none)
      (fun _ => [])
      (fun y => if y = 2023 then [("A", 17 / 10000)] else [])
      (fun y => if y = 2023 then [("A", 25 / 10000)] else [])
      ⟨0, 0⟩ 50 2023).activePopulation = 2 ∧
    (calculate_catchment_area (fun _ _ => 0) [⟨"A", ⟨0, 0⟩⟩] (fun _ => none)
      (fun _ => [])
      (fun y => if y = 2023 then [("A", 17 / 10000)] else [])
      (fun y => if y = 2023 then [("A", 25 / 10000)] else [])
      ⟨0, 0⟩ 50 2023).unemployedPersons = 1 ∧
    (calculate_catchment_area (fun _ _ => 0) [⟨"A", ⟨0, 0⟩⟩] (fun _ => none)
      (fun _ => [])
      (fun y => if y = 2023 then [("A", 17 / 10000)] else [])
      (fun y => if y = 2023 then [("A", 25 / 10000)] else [])
      ⟨0, 0⟩ 50 2023).employedPersons = 0 ∧
    (calculate_catchment_area (fun _ _ => 0) [⟨"A", ⟨0, 0⟩⟩] (fun _ => none)
      (fun _ => [])
      (fun y => if y = 2023 then [("A", 17 / 10000)] else [])
      (fun y => if y = 2023 then [("A", 25 / 10000)] else [])
      ⟨0, 0⟩ 50 2023).employedPersons ≠
    (calculate_catchment_area (fun _ _ => 0) [⟨"A", ⟨0, 0⟩⟩] (fun _ => none)
      (fun _ => [])
      (fun y => if y = 2023 then [("A", 17 / 10000)] else [])
      (fun y => if y = 2023 then [("A", 25 / 10000)] else [])
      ⟨0, 0⟩ 50 2023).activePopulation -
    (calculate_catchment_area (fun _ _ => 0) [⟨"A", ⟨0, 0⟩⟩] (fun _ => none)
      (fun _ => [])
      (fun y => if y = 2023 then [("A", 17 / 10000)] else [])
      (fun y => if y = 2023 then [("A", 25 / 10000)] else [])
      ⟨0, 0⟩ 50 2023).unemployedPersons := by
  refine ⟨?_, ?_, ?_, ?_⟩
  all_goals
    simp +decide only [calculate_catchment_area, effectiveSelection, selectNearby,
      catchRaw, catchAccum, nutsStat, fetchWithFallback, lookupLast, weightOf, pyInt,
      List.filterMap, List.find?, List.foldl, List.isEmpty, List.reverse,
      List.reverseAux, Option.map, Function.comp]
  all_goals norm_num

/-- `C7` amended: the employed-persons field is the truncation toward zero of
the difference of the raw weighted means (active minus unemployed), computed
before either is itself truncated; it can therefore differ from the
difference of the reported integer fields, and it can be negative — no
correction is applied. -/
theorem catchment_employed_amended (hav : Coord → Coord → ℚ)
    (regions : List NutsRegion) (containLookup : Coord → Option String)
    (fetchPop fetchUnemp fetchActive : ℤ → List (String × ℚ))
    (site : Coord) (radius : ℚ) (year : ℤ)
    (sel : List (String × ℚ)) (pop unemp act : String → Option ℚ)
    (hsel : sel = effectiveSelection hav regions containLookup site radius)
    (hpop : pop = nutsStat fetchPop year 1)
    (hunemp : unemp = nutsStat fetchUnemp year 1000)
    (hact : act = nutsStat fetchActive year 1000) :
    (calculate_catchment_area hav regions containLookup fetchPop fetchUnemp
      fetchActive site radius year).employedPersons =
    pyInt ((catchRaw pop unemp act sel).2.2 - (catchRaw pop unemp act sel).2.1) := by
  by_cases hemp : (effectiveSelection hav regions containLookup site radius).isEmpty
  · have hnil : sel = [] := by
      rw [hsel]
      exact List.isEmpty_iff.mp hemp
    simp [calculate_catchment_area, hemp, hnil, catchRaw, catchAccum, pyInt]
  · have hemp2 : sel.isEmpty = false := by
      rw [hsel]
      exact eq_false_of_ne_true hemp
    simp only [calculate_catchment_area, ← hsel, ← hpop, ← hunemp, ← hact, hemp2,
      Bool.false_eq_true, if_false]

/-- Witness for `C7` amended: unemployed mean 5.5 against active mean 3.5
gives an employed field of `int(-2) = -2`, negative and uncorrected. -/
theorem catchment_employed_amended_witness :
    (calculate_catchment_area (fun _ _ => 0) [⟨"A", ⟨0, 0⟩⟩] (fun _ => none)
      (fun _ => [])
      (fun y => if y = 2023 then [("A", 55 / 10000)] else [])
      (fun y => if y = 2023 then [("A", 35 / 10000)] else [])
      ⟨0, 0⟩ 50 2023).employedPersons =
    pyInt ((catchRaw (nutsStat (fun _ => ([] : List (String × ℚ))) 2023 1)
        (nutsStat (fun y => if y = 2023 then [("A", 55 / 10000)] else []) 2023 1000)
        (nutsStat (fun y => if y = 2023 then [("A", 35 / 10000)] else []) 2023 1000)
        [("A", 0)]).2.2 -
      (catchRaw (nutsStat (fun _ => ([] : List (String × ℚ))) 2023 1)
        (nutsStat (fun y => if y = 2023 then [("A", 55 / 10000)] else []) 2023 1000)
        (nutsStat (fun y => if y = 2023 then [("A", 35 / 10000)] else []) 2023 1000)
        [("A", 0)]).2.1) ∧
    (calculate_catchment_area (fun _ _ => 0) [⟨"A", ⟨0, 0⟩⟩] (fun _ => none)
      (fun _ => [])
      (fun y => if y = 2023 then [("A", 55 / 10000)] else [])
      (fun y => if y = 2023 then [("A", 35 / 10000)] else [])
      ⟨0, 0⟩ 50 2023).employedPersons = -2 ∧
    (calculate_catchment_area (fun _ _ => 0) [⟨"A", ⟨0, 0⟩⟩] (fun _ => none)
      (fun _ => [])
      (fun y => if y = 2023 then [("A", 55 / 10000)] else [])
      (fun y => if y = 2023 then [("A", 35 / 10000)] else [])
      ⟨0, 0⟩ 50 2023).employedPersons < 0 := by
  have hsel : ([(("A" : String), (0 : ℚ))] : List (String × ℚ)) =
      effectiveSelection (fun _ _ => 0) [⟨"A", ⟨0, 0⟩⟩] (fun _ => none) ⟨0, 0⟩ 50 := by
    simp +decide only [effectiveSelection, selectNearby, List.filterMap, List.isEmpty]
  have h := catchment_employed_amended (fun _ _ => 0) [⟨"A", ⟨0, 0⟩⟩] (fun _ => none)
    (fun _ => [])
    (fun y => if y = 2023 then [("A", 55 / 10000)] else [])
    (fun y => if y = 2023 then [("A", 35 / 10000)] else [])
    ⟨0, 0⟩ 50 2023 [("A", 0)]
    (nutsStat (fun _ => ([] : List (String × ℚ))) 2023 1)
    (nutsStat (fun y => if y = 2023 then [("A", 55 / 10000)] else []) 2023 1000)
    (nutsStat (fun y => if y = 2023 then [("A", 35 / 10000)] else []) 2023 1000)
    hsel rfl rfl rfl
  refine ⟨h, ?_, ?_⟩
  all_goals
    simp +decide only [calculate_catchment_area, effectiveSelection, selectNearby,
      catchRaw, catchAccum, nutsStat, fetchWithFallback, lookupLast, weightOf, pyInt,
      List.filterMap, List.find?, List.foldl, List.isEmpty, List.reverse,
      List.reverseAux, Option.map, Function.comp]
  all_goals norm_num

/-! ## C5: the spatial-index lookup -/

theorem findSome?_range_first {α : Type} (f : ℕ → Option α) (n j : ℕ)
    (hj : j < n) (hnone : ∀ k, k < j → f k = none) (hsome : (f j).isSome) :
    (List.range n).findSome? f = f j := by
  have hn : n = (j + 1) + (n - (j + 1)) := by omega
  rw [hn, List.range_add, List.findSome?_append, List.range_succ,
    List.findSome?_append]
  have h1 : (List.range j).findSome? f = none := by
    rw [List.findSome?_eq_none_iff]
    intro x hx
    exact hnone x (List.mem_range.mp hx)
  have h2 : List.findSome? f [j] = f j := by
    rw [List.findSome?_cons]
    cases f j <;> rfl
  rw [h1, h2]
  cases hfj : f j with
  | none => rw [hfj] at hsome; exact absurd hsome (by simp)
  | some b => rfl

/-- Counterexample for `C5`: an index of two geometries that both contain the
query point; the spatial-index query reports them as `[1, 0]`, and the lookup
returns the properties of region 1 — the later-loaded region — with no
containment test of its own, contradicting the claimed load-order tie-break
(which requires region 0). -/
theorem nuts_lookup_order_counterexample :
    nutsLookupGeneric
      ⟨true,
        [⟨fun _ => true, fun _ => true⟩, ⟨fun _ => true, fun _ => true⟩],
        [⟨"A", "RegionA"⟩, ⟨"B", "RegionB"⟩],
        fun _ => [1, 0], fun _ => []⟩ ⟨0, 0⟩ = some ⟨"B", "RegionB"⟩ ∧
    ((⟨true,
        [⟨fun _ => true, fun _ => true⟩, ⟨fun _ => true, fun _ => true⟩],
        [⟨"A", "RegionA"⟩, ⟨"B", "RegionB"⟩],
        fun _ => [1, 0], fun _ => []⟩ : NutsIndex).geoms.all
      (fun g => g.containsB ⟨0, 0⟩)) = true ∧
    (⟨"B", "RegionB"⟩ : NutsProps) ≠ ⟨"A", "RegionA"⟩ := by
  refine ⟨rfl, rfl, by decide⟩

/-- `C5` amended: the lookup returns the properties of the first in-range
index in the order reported by the spatial-index intersects query, with no
containment test and no preference of interior containment over
boundary-touching; only when both the direct and the buffered queries report
nothing does it scan the geometries in load order, returning the first whose
geometry contains or intersects the point. -/
theorem nuts_lookup_amended (idx : NutsIndex) (pt : Coord) :
    (∀ i rest, idx.ok = true → idx.query pt = i :: rest →
      i < idx.props.length → nutsLookupGeneric idx pt = idx.props.get? i) ∧
    (∀ j, idx.ok = true → idx.query pt = [] → idx.queryBuffered pt = [] →
      j < idx.geoms.length → (∀ k, k < j → scanHit idx pt k = none) →
      (scanHit idx pt j).isSome →
      nutsLookupGeneric idx pt = scanHit idx pt j) := by
  constructor
  · intro i rest hok hq hi
    have hfir : firstInRange idx.props (idx.query pt) = idx.props.get? i := by
      rw [hq]
      simp [firstInRange, List.find?, hi]
    cases hp : idx.props.get? i with
    | none =>
      exact absurd (List.get?_eq_none.mp hp) (by omega)
    | some p =>
      rw [hp] at hfir
      simp [nutsLookupGeneric, hok, hfir, hp]
  · intro j hok hq hbuf hj hnone hsome
    have hfir : firstInRange idx.props (idx.query pt) = none := by
      rw [hq]; rfl
    have hscan : scanHits idx pt (List.range idx.geoms.length) = scanHit idx pt j :=
      findSome?_range_first (scanHit idx pt) idx.geoms.length j hj hnone hsome
    simp [nutsLookupGeneric, hok, hq, hbuf, hfir, scanHits] at hscan ⊢
    rw [hscan]
    rfl

/-- Witness for `C5` amended: a first-in-query-order instance (query `[0]`)
and a linear-fallback instance (empty queries, first geometry missing the
point, second containing it). -/
theorem nuts_lookup_amended_witness :
    nutsLookupGeneric
      ⟨true, [⟨fun _ => true, fun _ => true⟩],
        [⟨"A", "RegionA"⟩], fun _ => [0], fun _ => []⟩ ⟨0, 0⟩ =
      some ⟨"A", "RegionA"⟩ ∧
    nutsLookupGeneric
      ⟨true,
        [⟨fun _ => false, fun _ => false⟩, ⟨fun _ => true, fun _ => true⟩],
        [⟨"A", "RegionA"⟩, ⟨"B", "RegionB"⟩],
        fun _ => [], fun _ => []⟩ ⟨0, 0⟩ = some ⟨"B", "RegionB"⟩ := by
  constructor
  · have h := (nuts_lookup_amended
      ⟨true, [⟨fun _ => true, fun _ => true⟩],
        [⟨"A", "RegionA"⟩], fun _ => [0], fun _ => []⟩ ⟨0, 0⟩).1 0 [] rfl rfl
      (by decide)
    simpa using h
  · have h := (nuts_lookup_amended
      ⟨true,
        [⟨fun _ => false, fun _ => false⟩, ⟨fun _ => true, fun _ => true⟩],
        [⟨"A", "RegionA"⟩, ⟨"B", "RegionB"⟩],
        fun _ => [], fun _ => []⟩ ⟨0, 0⟩).2 1 rfl rfl rfl (by decide)
      (by intro k hk; interval_cases k; rfl) (by rfl)
    simpa [scanHit, geomHit] using h

/-! ## Lemmas about the candidate routing loop -/

theorem routeFold_append (router : Router) (pe : ℕ) (origin : Coord)
    (tag : String) (st : RCOut) (l1 l2 : List Facility) :
    routeFold router pe origin tag st (l1 ++ l2) =
    routeFold router pe origin tag (routeFold router pe origin tag st l1) l2 := by
  simp [routeFold, List.foldl_append]

/-- One loop iteration either succeeds (counter `+1`, no log entry) or fails
(counter unchanged, one error logged); either way one pause flag is emitted,
valued by the pacing test on the counter before the call. -/
theorem routeStep_cases (router : Router) (pe : ℕ) (origin : Coord)
    (tag : String) (st : RCOut) (f : Facility) :
    (((routeStep router pe origin tag st f).apiCalls = st.apiCalls + 1 ∧
      (routeStep router pe origin tag st f).errors = st.errors) ∨
     ((routeStep router pe origin tag st f).apiCalls = st.apiCalls ∧
      (routeStep router pe origin tag st f).errors.length = st.errors.length + 1)) ∧
    (routeStep router pe origin tag st f).pauses =
      st.pauses ++ [paceTest pe st.apiCalls] := by
  unfold routeStep
  cases h : (get_route router st.cache origin (fcoord f)).result <;> simp [h]

theorem routeFold_counter (router : Router) (pe : ℕ) (origin : Coord)
    (tag : String) (cands : List Facility) (st : RCOut) :
    (routeFold router pe origin tag st cands).apiCalls +
      (routeFold router pe origin tag st cands).errors.length =
      st.apiCalls + st.errors.length + cands.length := by
  induction cands generalizing st with
  | nil => simp [routeFold]
  | cons hd tl ih =>
    have hstep := (routeStep_cases router pe origin tag st hd).1
    have hfold : routeFold router pe origin tag st (hd :: tl) =
        routeFold router pe origin tag (routeStep router pe origin tag st hd) tl := by
      simp [routeFold]
    rw [hfold, ih]
    rcases hstep with ⟨h1, h2⟩ | ⟨h1, h2⟩ <;>
      simp only [h1, h2, List.length_cons] <;> omega

theorem routeFold_pauses_length (router : Router) (pe : ℕ) (origin : Coord)
    (tag : String) (cands : List Facility) (st : RCOut) :
    (routeFold router pe origin tag st cands).pauses.length =
      st.pauses.length + cands.length := by
  induction cands generalizing st with
  | nil => simp [routeFold]
  | cons hd tl ih =>
    have hfold : routeFold router pe origin tag st (hd :: tl) =
        routeFold router pe origin tag (routeStep router pe origin tag st hd) tl := by
      simp [routeFold]
    rw [hfold, ih, (routeStep_cases router pe origin tag st hd).2]
    simp only [List.length_append, List.length_cons, List.length_nil]
    omega

theorem routeFold_pauses_extend (router : Router) (pe : ℕ) (origin : Coord)
    (tag : String) (cands : List Facility) (st : RCOut) :
    ∃ suffix, (routeFold router pe origin tag st cands).pauses =
      st.pauses ++ suffix := by
  induction cands generalizing st with
  | nil => exact ⟨[], by simp [routeFold]⟩
  | cons hd tl ih =>
    have hfold : routeFold router pe origin tag st (hd :: tl) =
        routeFold router pe origin tag (routeStep router pe origin tag st hd) tl := by
      simp [routeFold]
    obtain ⟨sfx, hsfx⟩ := ih (routeStep router pe origin tag st hd)
    refine ⟨[paceTest pe st.apiCalls] ++ sfx, ?_⟩
    rw [hfold, hsfx, (routeStep_cases router pe origin tag st hd).2]
    simp

/-- Counterexample for `C4`: a single failed routing attempt (the provider
errors) leaves the call counter at 0, not 1 — the counter is incremented only
after `get_route` returns, so a failed attempt does not count. -/
theorem rate_limit_counter_counterexample :
    (routeCandidates (fun _ _ => .error "timeout") 5 ⟨0, 0⟩ "Airport"
      [⟨"X", "", 1, 1⟩] [] 0).pauses.length = 1 ∧
    (routeCandidates (fun _ _ => .error "timeout") 5 ⟨0, 0⟩ "Airport"
      [⟨"X", "", 1, 1⟩] [] 0).apiCalls = 0 ∧
    (routeCandidates (fun _ _ => .error "timeout") 5 ⟨0, 0⟩ "Airport"
      [⟨"X", "", 1, 1⟩] [] 0).apiCalls ≠ 1 := by
  refine ⟨rfl, rfl, by decide⟩

/-- `C4` amended: over any run of the candidate loop the counter increments
exactly on successful exact-routing attempts — each failed attempt leaves it
unchanged and adds one error log entry instead, so counter plus error count
advances by the number of attempts; one pacing check happens before every
attempt, and the loop pauses before the `i`-th call exactly when the counter
at that moment is a nonzero multiple of the configured interval `N`
(`paceTest`). -/
theorem rate_limit_amended (router : Router) (pe : ℕ) (origin : Coord)
    (tag : String) (cands : List Facility) (cache0 : RouteCache) (api0 : ℕ) :
    (routeCandidates router pe origin tag cands cache0 api0).apiCalls +
      (routeCandidates router pe origin tag cands cache0 api0).errors.length =
      api0 + cands.length ∧
    (routeCandidates router pe origin tag cands cache0 api0).pauses.length =
      cands.length ∧
    (∀ st f, ((routeStep router pe origin tag st f).apiCalls = st.apiCalls + 1 ∧
        (routeStep router pe origin tag st f).errors = st.errors) ∨
      ((routeStep router pe origin tag st f).apiCalls = st.apiCalls ∧
        (routeStep router pe origin tag st f).errors.length = st.errors.length + 1)) ∧
    (∀ i, i < cands.length →
      (routeCandidates router pe origin tag cands cache0 api0).pauses[i]? =
        some (paceTest pe
          (routeCandidates router pe origin tag (cands.take i) cache0 api0).apiCalls)) := by
  refine ⟨?_, ?_, fun st f => (routeStep_cases router pe origin tag st f).1, ?_⟩
  · simpa using routeFold_counter router pe origin tag cands ⟨none, cache0, api0, [], []⟩
  · simpa using routeFold_pauses_length router pe origin tag cands ⟨none, cache0, api0, [], []⟩
  · intro i hi
    have hsplit : cands = cands.take i ++ cands.drop i := (List.take_append_drop i cands).symm
    obtain ⟨x, rest, hdrop⟩ : ∃ x rest, cands.drop i = x :: rest := by
      cases hd : cands.drop i with
      | nil =>
        have := List.drop_eq_nil_iff.mp hd
        omega
      | cons x rest => exact ⟨x, rest, rfl⟩
    set mid := routeFold router pe origin tag ⟨none, cache0, api0, [], []⟩ (cands.take i) with hmid
    have hlen : mid.pauses.length = i := by
      rw [hmid, routeFold_pauses_length]
      simp [List.length_take]
      omega
    have hout : routeCandidates router pe origin tag cands cache0 api0 =
        routeFold router pe origin tag
          (routeStep router pe origin tag mid x) rest := by
      rw [routeCandidates]
      conv_lhs => rw [hsplit, hdrop]
      rw [routeFold_append]
      rw [← hmid]
      simp [routeFold]
    obtain ⟨sfx, hsfx⟩ := routeFold_pauses_extend router pe origin tag rest
      (routeStep router pe origin tag mid x)
    have hpauses : (routeCandidates router pe origin tag cands cache0 api0).pauses =
        mid.pauses ++ ([paceTest pe mid.apiCalls] ++ sfx) := by
      rw [hout, hsfx, (routeStep_cases router pe origin tag mid x).2]
      simp
    rw [hpauses]
    have : (mid.pauses ++ ([paceTest pe mid.apiCalls] ++ sfx))[i]? =
        ([paceTest pe mid.apiCalls] ++ sfx)[i - mid.pauses.length]? :=
      List.getElem?_append_right (by omega)
    rw [this, hlen]
    simp [routeCandidates, ← hmid]

/-- Witness for `C4` amended: one failing attempt starting from a counter of
2 with pacing interval 2; the counter stays at 2, one error is logged, and
the pause before the call fires because 2 is a nonzero multiple of 2. -/
theorem rate_limit_amended_witness :
    (routeCandidates (fun _ _ => .error "timeout") 2 ⟨0, 0⟩ "Airport"
      [⟨"X", "", 1, 1⟩] [] 2).apiCalls +
      (routeCandidates (fun _ _ => .error "timeout") 2 ⟨0, 0⟩ "Airport"
        [⟨"X", "", 1, 1⟩] [] 2).errors.length = 2 + 1 ∧
    (routeCandidates (fun _ _ => .error "timeout") 2 ⟨0, 0⟩ "Airport"
      [⟨"X", "", 1, 1⟩] [] 2).pauses.length = 1 ∧
    (routeCandidates (fun _ _ => .error "timeout") 2 ⟨0, 0⟩ "Airport"
      [⟨"X", "", 1, 1⟩] [] 2).pauses[0]? =
      some (paceTest 2
        (routeCandidates (fun _ _ => .error "timeout") 2 ⟨0, 0⟩ "Airport"
          ([⟨"X", "", 1, 1⟩].take 0) [] 2).apiCalls) ∧
    (routeCandidates (fun _ _ => .error "timeout") 2 ⟨0, 0⟩ "Airport"
      [⟨"X", "", 1, 1⟩] [] 2).pauses = [true] := by
  have h := rate_limit_amended (fun _ _ => .error "timeout") 2 ⟨0, 0⟩ "Airport"
    [⟨"X", "", 1, 1⟩] [] 2
  exact ⟨h.1, h.2.1, h.2.2.2 0 (by decide), rfl⟩

/-! ## Lemmas about the prefilter -/

theorem argsort_perm (ds : List ℚ) :
    (argsort ds).Perm (List.range ds.length) :=
  List.mergeSort_perm (List.range ds.length) _

theorem argsort_length (ds : List ℚ) : (argsort ds).length = ds.length := by
  simpa using (argsort_perm ds).length_eq

theorem argsort_sorted (ds : List ℚ) :
    (argsort ds).Pairwise (fun i j => ds.getD i 0 ≤ ds.getD j 0) := by
  have h := @List.sorted_mergeSort ℕ
    (fun i j => decide (ds.getD i 0 ≤ ds.getD j 0))
    (fun a b c hab hbc => by
      simp only [decide_eq_true_eq] at hab hbc ⊢
      exact le_trans hab hbc)
    (fun a b => by
      simp only [Bool.or_eq_true, decide_eq_true_eq]
      exact le_total (ds.getD a 0) (ds.getD b 0))
    (List.range ds.length)
  have h2 := h.imp (fun hab => of_decide_eq_true hab)
  exact h2

theorem prefilterIdx_length (hav : Coord → Coord → ℚ) (site : Coord)
    (facs : List Facility) (topn : ℕ) :
    (prefilterIdx hav site facs topn).length = min topn facs.length := by
  unfold prefilterIdx
  rw [List.length_take, argsort_length]
  simp only [List.length_map]
  omega

theorem mem_prefilterIdx_lt (hav : Coord → Coord → ℚ) (site : Coord)
    (facs : List Facility) (topn : ℕ) (i : ℕ)
    (h : i ∈ prefilterIdx hav site facs topn) : i < facs.length := by
  have h1 : i ∈ argsort (facs.map (fun f => hav site (fcoord f))) :=
    List.mem_of_mem_take h
  have h2 := (argsort_perm _).mem_iff.mp h1
  simpa using List.mem_range.mp h2

theorem filterMap_get_length {α : Type} (facs : List α) (l : List ℕ)
    (h : ∀ i ∈ l, i < facs.length) :
    (l.filterMap (fun i => facs.get? i)).length = l.length := by
  induction l with
  | nil => rfl
  | cons hd tl ih =>
    have hhd : hd < facs.length := h hd (by simp)
    have hx : facs.get? hd = some (facs.get ⟨hd, hhd⟩) := List.get?_eq_get hhd
    rw [List.filterMap_cons, hx]
    simp only [List.length_cons]
    rw [ih (fun i hi => h i (by simp [hi]))]

theorem selectCandidates_length (hav : Coord → Coord → ℚ) (site : Coord)
    (facs : List Facility) (topn : ℕ) :
    (selectCandidates hav site facs topn).length = min topn facs.length := by
  unfold selectCandidates
  rw [filterMap_get_length facs _ (fun i hi => mem_prefilterIdx_lt hav site facs topn i hi)]
  exact prefilterIdx_length hav site facs topn

/-- The selected indices dominate the unselected ones: every prefiltered
index has a distance no larger than every index the prefilter dropped. -/
theorem prefilter_dominance (hav : Coord → Coord → ℚ) (site : Coord)
    (facs : List Facility) (topn : ℕ) :
    ∀ i ∈ prefilterIdx hav site facs topn,
      ∀ j ∈ (argsort (facs.map (fun f => hav site (fcoord f)))).drop
        (min topn facs.length),
      (facs.map (fun f => hav site (fcoord f))).getD i 0 ≤
        (facs.map (fun f => hav site (fcoord f))).getD j 0 := by
  intro i hi j hj
  set ds := facs.map (fun f => hav site (fcoord f)) with hds
  have hsort := argsort_sorted ds
  have hsplit : argsort ds =
      (argsort ds).take (min topn facs.length) ++
      (argsort ds).drop (min topn facs.length) :=
    (List.take_append_drop _ _).symm
  rw [hsplit] at hsort
  have := (List.pairwise_append.mp hsort).2.2
  exact this i hi j hj

/-! ## Preservation of the facility fields by the later steps -/

theorem highwayStep_facilityFields (env : Env) (p : Params) (origin : Coord)
    (st : StepState) :
    facilityFields (highwayStep env p origin st).outRec =
      facilityFields st.outRec := by
  simp only [highwayStep]
  split
  · split <;> rfl
  · rfl

theorem refStep_facilityFields (env : Env) (p : Params) (origin : Coord)
    (st : StepState) :
    facilityFields (refStep env p origin st).outRec =
      facilityFields st.outRec := by
  simp only [refStep]
  split
  · split <;> rfl
  · rfl

theorem cityStep_facilityFields (env : Env) (origin : Coord) (st : StepState) :
    facilityFields (cityStep env origin st).outRec =
      facilityFields st.outRec := by
  simp only [cityStep]
  split
  · split
    · split
      · split <;> rfl
      · rfl
    · rfl
  · rfl

theorem nutsStep_facilityFields (env : Env) (origin : Coord) (r : OutRec) :
    facilityFields (nutsStep env origin r) = facilityFields r := by
  simp only [nutsStep]
  split
  · split <;> split <;> rfl
  · rfl

theorem catchmentStep_facilityFields (env : Env) (p : Params) (origin : Coord)
    (r : OutRec) :
    facilityFields (catchmentStep env p origin r) = facilityFields r := by
  simp only [catchmentStep]
  split
  · split <;> rfl
  · rfl

theorem adminStep_facilityFields (env : Env) (origin : Coord) (r : OutRec) :
    facilityFields (adminStep env origin r).1 = facilityFields r := by
  simp only [adminStep]
  split <;> split <;> split <;> rfl

theorem osmStep_facilityFields (env : Env) (p : Params) (haveOfficial : Bool)
    (origin : Coord) (r : OutRec) :
    facilityFields (osmStep env p haveOfficial origin r) = facilityFields r := by
  simp only [osmStep]
  split <;> rfl

/-- The facility fields of the final record are exactly those after the two
facility loops. -/
theorem processSite_facilityFields (env : Env) (p : Params)
    (airFacs seaFacs : List Facility) (s : SiteRaw) (slat slon : ℚ)
    (cache0 : RouteCache) (api0 : ℕ) :
    facilityFields (processSite env p airFacs seaFacs s slat slon cache0 api0).outRec =
    facilityFields (seaportStep env p seaFacs ⟨slat, slon⟩
      (airportStep env p airFacs ⟨slat, slon⟩
        ⟨initRec s slat slon, [], cache0, api0⟩)).outRec := by
  unfold processSite
  rw [osmStep_facilityFields, adminStep_facilityFields,
    catchmentStep_facilityFields, nutsStep_facilityFields,
    cityStep_facilityFields, refStep_facilityFields, highwayStep_facilityFields]

theorem selectCandidates_zero (hav : Coord → Coord → ℚ) (site : Coord)
    (facs : List Facility) :
    selectCandidates hav site facs 0 = [] := by
  unfold selectCandidates prefilterIdx
  simp

theorem airportStep_topn_zero (env : Env) (p : Params) (airFacs : List Facility)
    (origin : Coord) (st : StepState) (h : p.topn = 0) :
    airportStep env p airFacs origin st = ⟨st.outRec, st.steps, st.cache, st.apiCalls⟩ := by
  unfold airportStep nearestFacility
  rw [h, selectCandidates_zero]
  simp [routeCandidates, routeFold, applyAirportBest]

theorem seaportStep_topn_zero (env : Env) (p : Params) (seaFacs : List Facility)
    (origin : Coord) (st : StepState) (h : p.topn = 0) :
    seaportStep env p seaFacs origin st = ⟨st.outRec, st.steps, st.cache, st.apiCalls⟩ := by
  unfold seaportStep nearestFacility
  rw [h, selectCandidates_zero]
  simp [routeCandidates, routeFold, applySeaportBest]

/-- `C2`: the pipeline attempts exact routing for exactly `min topn M`
candidates out of `M` — one pacing check per attempted candidate — and these
are candidates whose approximate (great-circle) distance is no larger than
that of every candidate the prefilter dropped; with `topn = 0` the loop does
nothing (no routing call, no state change) and the site record's airport and
seaport fields all stay at the missing marker. -/
theorem prefilter_bound (router : Router) (hav : Coord → Coord → ℚ)
    (pe : ℕ) (tag : String) (site : Coord) (facs : List Facility) (topn : ℕ)
    (cache0 : RouteCache) (api0 : ℕ) (env : Env) (p : Params)
    (airFacs seaFacs : List Facility) (s : SiteRaw) (slat slon : ℚ) :
    (selectCandidates hav site facs topn).length = min topn facs.length ∧
    (nearestFacility router hav pe tag site facs topn cache0 api0).pauses.length =
      min topn facs.length ∧
    (∀ i ∈ prefilterIdx hav site facs topn,
      ∀ j ∈ (argsort (facs.map (fun f => hav site (fcoord f)))).drop
        (min topn facs.length),
      (facs.map (fun f => hav site (fcoord f))).getD i 0 ≤
        (facs.map (fun f => hav site (fcoord f))).getD j 0) ∧
    (topn = 0 →
      nearestFacility router hav pe tag site facs topn cache0 api0 =
        ⟨none, cache0, api0, [], []⟩) ∧
    (p.topn = 0 →
      (processSite env p airFacs seaFacs s slat slon cache0 api0).outRec.nearestAirport = none ∧
      (processSite env p airFacs seaFacs s slat slon cache0 api0).outRec.distAirport = none ∧
      (processSite env p airFacs seaFacs s slat slon cache0 api0).outRec.timeAirport = none ∧
      (processSite env p airFacs seaFacs s slat slon cache0 api0).outRec.nearestSeaport = none ∧
      (processSite env p airFacs seaFacs s slat slon cache0 api0).outRec.distSeaport = none ∧
      (processSite env p airFacs seaFacs s slat slon cache0 api0).outRec.timeSeaport = none) := by
  refine ⟨selectCandidates_length hav site facs topn, ?_,
    prefilter_dominance hav site facs topn, fun h0 => ?_, fun hp0 => ?_⟩
  · unfold nearestFacility routeCandidates
    rw [routeFold_pauses_length]
    simp [selectCandidates_length]
  · unfold nearestFacility routeCandidates
    rw [h0, selectCandidates_zero]
    rfl
  · have hff := processSite_facilityFields env p airFacs seaFacs s slat slon cache0 api0
    rw [airportStep_topn_zero env p airFacs ⟨slat, slon⟩ _ hp0,
      seaportStep_topn_zero env p seaFacs ⟨slat, slon⟩ _ hp0] at hff
    have h7 : facilityFields
        (processSite env p airFacs seaFacs s slat slon cache0 api0).outRec =
        (none, none, none, none, none, none, none) := hff
    simp only [facilityFields, Prod.mk.injEq] at h7
    exact ⟨h7.1, h7.2.2.1, h7.2.2.2.1, h7.2.2.2.2.1, h7.2.2.2.2.2.1, h7.2.2.2.2.2.2⟩

/-- Witness for `C2`: three candidate facilities with prefilter sizes 2 and
0; the loop attempts `min 2 3 = 2` candidates, and with `topn = 0` it makes
no call, changes no state, and the record's airport/seaport fields stay
missing. -/
theorem prefilter_bound_witness :
    (selectCandidates (fun _ c => c.lat) ⟨0, 0⟩
      [⟨"F1", "", 3, 0⟩, ⟨"F2", "", 1, 0⟩, ⟨"F3", "", 2, 0⟩] 2).length = min 2 3 ∧
    (nearestFacility (fun _ _ => .error "x") (fun _ c => c.lat) 0 "Airport" ⟨0, 0⟩
      [⟨"F1", "", 3, 0⟩, ⟨"F2", "", 1, 0⟩, ⟨"F3", "", 2, 0⟩] 2 [] 0).pauses.length =
      min 2 3 ∧
    nearestFacility (fun _ _ => .error "x") (fun _ c => c.lat) 0 "Airport" ⟨0, 0⟩
      [⟨"F1", "", 3, 0⟩, ⟨"F2", "", 1, 0⟩, ⟨"F3", "", 2, 0⟩] 0 [] 0 =
      ⟨none, [], 0, [], []⟩ ∧
    (processSite
      ⟨fun _ _ => .error "x", fun _ c => c.lat, fun _ => none, false,
        fun _ => none, false, fun _ => none, fun _ => none, [],
        fun _ => [], fun _ => [], fun _ => [], none, none, none,
        fun _ => ⟨"", "", "", "", "", ""⟩⟩
      ⟨0, false, 0, 0, "", 0, 0, true, false, false, false, 50⟩
      [⟨"F1", "", 3, 0⟩] [⟨"H1", "", 4, 0⟩]
      ⟨"P1", "S1", "Site", .num 0, .num 0⟩ 0 0 [] 0).outRec.nearestAirport = none ∧
    (processSite
      ⟨fun _ _ => .error "x", fun _ c => c.lat, fun _ => none, false,
        fun _ => none, false, fun _ => none, fun _ => none, [],
        fun _ => [], fun _ => [], fun _ => [], none, none, none,
        fun _ => ⟨"", "", "", "", "", ""⟩⟩
      ⟨0, false, 0, 0, "", 0, 0, true, false, false, false, 50⟩
      [⟨"F1", "", 3, 0⟩] [⟨"H1", "", 4, 0⟩]
      ⟨"P1", "S1", "Site", .num 0, .num 0⟩ 0 0 [] 0).outRec.nearestSeaport = none := by
  have hA := prefilter_bound (fun _ _ => .error "x") (fun _ c => c.lat) 0 "Airport"
    ⟨0, 0⟩ [⟨"F1", "", 3, 0⟩, ⟨"F2", "", 1, 0⟩, ⟨"F3", "", 2, 0⟩] 2 [] 0
    ⟨fun _ _ => .error "x", fun _ c => c.lat, fun _ => none, false,
      fun _ => none, false, fun _ => none, fun _ => none, [],
      fun _ => [], fun _ => [], fun _ => [], none, none, none,
      fun _ => ⟨"", "", "", "", "", ""⟩⟩
    ⟨0, false, 0, 0, "", 0, 0, true, false, false, false, 50⟩
    [⟨"F1", "", 3, 0⟩] [⟨"H1", "", 4, 0⟩]
    ⟨"P1", "S1", "Site", .num 0, .num 0⟩ 0 0
  have hB := prefilter_bound (fun _ _ => .error "x") (fun _ c => c.lat) 0 "Airport"
    ⟨0, 0⟩ [⟨"F1", "", 3, 0⟩, ⟨"F2", "", 1, 0⟩, ⟨"F3", "", 2, 0⟩] 0 [] 0
    ⟨fun _ _ => .error "x", fun _ c => c.lat, fun _ => none, false,
      fun _ => none, false, fun _ => none, fun _ => none, [],
      fun _ => [], fun _ => [], fun _ => [], none, none, none,
      fun _ => ⟨"", "", "", "", "", ""⟩⟩
    ⟨0, false, 0, 0, "", 0, 0, true, false, false, false, 50⟩
    [⟨"F1", "", 3, 0⟩] [⟨"H1", "", 4, 0⟩]
    ⟨"P1", "S1", "Site", .num 0, .num 0⟩ 0 0
  obtain ⟨hfields1, _, _, hfields4, _, _⟩ := hB.2.2.2.2 rfl
  exact ⟨hA.1, hA.2.1, hB.2.2.2.1 rfl, hfields1, hfields4⟩

/-! ## Failure and success behaviour of the routing loop -/

theorem routeStep_error (router : Router) (pe : ℕ) (origin : Coord)
    (tag : String) (st : RCOut) (f : Facility) (e : String)
    (h : (get_route router st.cache origin (fcoord f)).result = .error e) :
    routeStep router pe origin tag st f =
      ⟨st.best, st.cache, st.apiCalls,
        st.errors ++ [tag ++ " " ++ f.name ++ ": " ++ e],
        st.pauses ++ [paceTest pe st.apiCalls]⟩ := by
  simp only [routeStep, h]

theorem routeStep_best_isSome_of_ok (router : Router) (pe : ℕ) (origin : Coord)
    (tag : String) (st : RCOut) (f : Facility) (v : RouteVal)
    (h : (get_route router st.cache origin (fcoord f)).result = .ok v) :
    (routeStep router pe origin tag st f).best.isSome := by
  simp only [routeStep, h]
  cases st.best with
  | none => rfl
  | some b =>
    simp only
    split <;> rfl

theorem routeStep_best_mono (router : Router) (pe : ℕ) (origin : Coord)
    (tag : String) (st : RCOut) (f : Facility)
    (h : st.best.isSome) :
    (routeStep router pe origin tag st f).best.isSome := by
  cases hr : (get_route router st.cache origin (fcoord f)).result with
  | ok v => exact routeStep_best_isSome_of_ok router pe origin tag st f v hr
  | error e => rw [routeStep_error router pe origin tag st f e hr]; exact h

theorem routeFold_best_mono (router : Router) (pe : ℕ) (origin : Coord)
    (tag : String) (cands : List Facility) (st : RCOut)
    (h : st.best.isSome) :
    (routeFold router pe origin tag st cands).best.isSome := by
  induction cands generalizing st with
  | nil => exact h
  | cons hd tl ih =>
    have hfold : routeFold router pe origin tag st (hd :: tl) =
        routeFold router pe origin tag (routeStep router pe origin tag st hd) tl := by
      simp [routeFold]
    rw [hfold]
    exact ih _ (routeStep_best_mono router pe origin tag st hd h)

/-- If the provider succeeds for some candidate in the list, the loop ends
with a best facility. -/
theorem routeFold_best_of_success (router : Router) (pe : ℕ) (origin : Coord)
    (tag : String) (cands : List Facility) (st : RCOut)
    (h : ∃ f ∈ cands, ∃ v, router origin (fcoord f) = .ok v) :
    (routeFold router pe origin tag st cands).best.isSome := by
  induction cands generalizing st with
  | nil => obtain ⟨f, hf, _⟩ := h; exact absurd hf (by simp)
  | cons hd tl ih =>
    have hfold : routeFold router pe origin tag st (hd :: tl) =
        routeFold router pe origin tag (routeStep router pe origin tag st hd) tl := by
      simp [routeFold]
    rw [hfold]
    obtain ⟨f, hf, v, hv⟩ := h
    rcases List.mem_cons.mp hf with heq | htl
    · subst heq
      cases hg : (get_route router st.cache origin (fcoord f)).result with
      | ok w =>
        exact routeFold_best_mono router pe origin tag tl _
          (routeStep_best_isSome_of_ok router pe origin tag st f w hg)
      | error e =>
        exfalso
        simp only [get_route] at hg
        cases hl : cacheLookup st.cache (routeKey origin (fcoord f)) with
        | some w => rw [hl] at hg; simp at hg
        | none => rw [hl, hv] at hg; simp at hg
    · exact ih _ ⟨f, htl, v, hv⟩

/-- If every selected candidate fails, the loop leaves best, cache and
counter untouched and logs one error per candidate. -/
theorem routeFold_all_fail (router : Router) (pe : ℕ) (origin : Coord)
    (tag : String) (cands : List Facility) (st : RCOut)
    (h : ∀ f ∈ cands, ∃ e,
      (get_route router st.cache origin (fcoord f)).result = .error e) :
    (routeFold router pe origin tag st cands).best = st.best ∧
    (routeFold router pe origin tag st cands).cache = st.cache ∧
    (routeFold router pe origin tag st cands).apiCalls = st.apiCalls ∧
    (routeFold router pe origin tag st cands).errors =
      st.errors ++ cands.map (fun f => tag ++ " " ++ f.name ++ ": " ++
        (match (get_route router st.cache origin (fcoord f)).result with
          | .ok _ => ""
          | .error e => e)) := by
  induction cands generalizing st with
  | nil => simp [routeFold]
  | cons hd tl ih =>
    obtain ⟨e, he⟩ := h hd (by simp)
    have hfold : routeFold router pe origin tag st (hd :: tl) =
        routeFold router pe origin tag (routeStep router pe origin tag st hd) tl := by
      simp [routeFold]
    rw [hfold, routeStep_error router pe origin tag st hd e he]
    have ihs := ih ⟨st.best, st.cache, st.apiCalls,
      st.errors ++ [tag ++ " " ++ hd.name ++ ": " ++ e],
      st.pauses ++ [paceTest pe st.apiCalls]⟩
      (fun f hf => h f (by simp [hf]))
    refine ⟨ihs.1, ihs.2.1, ihs.2.2.1, ?_⟩
    rw [ihs.2.2.2]
    simp [he]

/-! ## Preservation of the identity fields and the log structure -/

theorem applyAirportBest_idFields (b : Option (Facility × ℚ × ℚ)) (r : OutRec) :
    idFields (applyAirportBest b r) = idFields r := by
  unfold applyAirportBest
  split <;> rfl

theorem applySeaportBest_idFields (b : Option (Facility × ℚ × ℚ)) (r : OutRec) :
    idFields (applySeaportBest b r) = idFields r := by
  unfold applySeaportBest
  split <;> rfl

theorem airportStep_idFields (env : Env) (p : Params) (airFacs : List Facility)
    (origin : Coord) (st : StepState) :
    idFields (airportStep env p airFacs origin st).outRec = idFields st.outRec := by
  simp only [airportStep]
  exact applyAirportBest_idFields _ _

theorem seaportStep_idFields (env : Env) (p : Params) (seaFacs : List Facility)
    (origin : Coord) (st : StepState) :
    idFields (seaportStep env p seaFacs origin st).outRec = idFields st.outRec := by
  simp only [seaportStep]
  exact applySeaportBest_idFields _ _

theorem highwayStep_idFields (env : Env) (p : Params) (origin : Coord)
    (st : StepState) :
    idFields (highwayStep env p origin st).outRec = idFields st.outRec := by
  simp only [highwayStep]
  split
  · split <;> rfl
  · rfl

theorem refStep_idFields (env : Env) (p : Params) (origin : Coord)
    (st : StepState) :
    idFields (refStep env p origin st).outRec = idFields st.outRec := by
  simp only [refStep]
  split
  · split <;> rfl
  · rfl

theorem cityStep_idFields (env : Env) (origin : Coord) (st : StepState) :
    idFields (cityStep env origin st).outRec = idFields st.outRec := by
  simp only [cityStep]
  split
  · split
    · split
      · split <;> rfl
      · rfl
    · rfl
  · rfl

theorem nutsStep_idFields (env : Env) (origin : Coord) (r : OutRec) :
    idFields (nutsStep env origin r) = idFields r := by
  simp only [nutsStep]
  split
  · split <;> split <;> rfl
  · rfl

theorem catchmentStep_idFields (env : Env) (p : Params) (origin : Coord)
    (r : OutRec) :
    idFields (catchmentStep env p origin r) = idFields r := by
  simp only [catchmentStep]
  split
  · split <;> rfl
  · rfl

theorem adminStep_idFields (env : Env) (origin : Coord) (r : OutRec) :
    idFields (adminStep env origin r).1 = idFields r := by
  simp only [adminStep]
  split <;> split <;> split <;> rfl

theorem osmStep_idFields (env : Env) (p : Params) (haveOfficial : Bool)
    (origin : Coord) (r : OutRec) :
    idFields (osmStep env p haveOfficial origin r) = idFields r := by
  simp only [osmStep]
  split <;> rfl

theorem processSite_idFields (env : Env) (p : Params)
    (airFacs seaFacs : List Facility) (s : SiteRaw) (slat slon : ℚ)
    (cache0 : RouteCache) (api0 : ℕ) :
    idFields (processSite env p airFacs seaFacs s slat slon cache0 api0).outRec =
    idFields (initRec s slat slon) := by
  unfold processSite
  rw [osmStep_idFields, adminStep_idFields, catchmentStep_idFields,
    nutsStep_idFields, cityStep_idFields, refStep_idFields,
    highwayStep_idFields, seaportStep_idFields, airportStep_idFields]

theorem processSite_siteName (env : Env) (p : Params)
    (airFacs seaFacs : List Facility) (s : SiteRaw) (slat slon : ℚ)
    (cache0 : RouteCache) (api0 : ℕ) :
    (processSite env p airFacs seaFacs s slat slon cache0 api0).outRec.siteName =
      s.name.trim := by
  have h := processSite_idFields env p airFacs seaFacs s slat slon cache0 api0
  simp only [idFields, initRec, Prod.mk.injEq] at h
  exact h.2.2.1

theorem processSite_log_site (env : Env) (p : Params)
    (airFacs seaFacs : List Facility) (s : SiteRaw) (slat slon : ℚ)
    (cache0 : RouteCache) (api0 : ℕ) :
    (processSite env p airFacs seaFacs s slat slon cache0 api0).log.site =
      s.name.trim := rfl

theorem highwayStep_steps (env : Env) (p : Params) (origin : Coord)
    (st : StepState) :
    (highwayStep env p origin st).steps = st.steps := by
  simp only [highwayStep]
  split
  · rfl
  · rfl

theorem refStep_steps (env : Env) (p : Params) (origin : Coord)
    (st : StepState) :
    ∃ extra, (refStep env p origin st).steps = st.steps ++ extra := by
  simp only [refStep]
  split
  · split
    · exact ⟨[], by simp⟩
    · exact ⟨_, rfl⟩
  · exact ⟨[], by simp⟩

theorem cityStep_steps (env : Env) (origin : Coord) (st : StepState) :
    ∃ extra, (cityStep env origin st).steps = st.steps ++ extra := by
  simp only [cityStep]
  split
  · split
    · split
      · split
        · exact ⟨_, rfl⟩
        · exact ⟨_, rfl⟩
      · exact ⟨_, rfl⟩
    · exact ⟨_, rfl⟩
  · exact ⟨[], by simp⟩

theorem filter_errorSteps {α : Type} (g : α → String) (l : List α) :
    (l.map (fun x => LogStep.errorStep (g x))).filter LogStep.isErr =
      l.map (fun x => LogStep.errorStep (g x)) := by
  induction l with
  | nil => rfl
  | cons hd tl ih => simp [LogStep.isErr, ih]

/-- When every prefiltered airport candidate fails to route, the airport step
changes nothing but the log: record, cache and counter stay put, and one
error entry per candidate is appended. -/
theorem airportStep_all_fail (env : Env) (p : Params) (airFacs : List Facility)
    (origin : Coord) (st : StepState)
    (h : ∀ f ∈ selectCandidates env.hav origin airFacs p.topn, ∃ e,
      (get_route env.router st.cache origin (fcoord f)).result = .error e) :
    (airportStep env p airFacs origin st).outRec = st.outRec ∧
    (airportStep env p airFacs origin st).cache = st.cache ∧
    (airportStep env p airFacs origin st).apiCalls = st.apiCalls ∧
    (airportStep env p airFacs origin st).steps = st.steps ++
      ((selectCandidates env.hav origin airFacs p.topn).map (fun f =>
        LogStep.errorStep ("Airport" ++ " " ++ f.name ++ ": " ++
          (match (get_route env.router st.cache origin (fcoord f)).result with
            | .ok _ => ""
            | .error e => e)))) := by
  have hfold := routeFold_all_fail env.router p.pauseEvery origin "Airport"
    (selectCandidates env.hav origin airFacs p.topn)
    ⟨none, st.cache, st.apiCalls, [], []⟩ (fun f hf => h f hf)
  simp only [airportStep, nearestFacility, routeCandidates]
  rw [hfold.1, hfold.2.1, hfold.2.2.1, hfold.2.2.2]
  refine ⟨rfl, rfl, rfl, ?_⟩
  simp [applyAirportBest, List.map_map, Function.comp]

/-- When some prefiltered seaport candidate routes successfully, the seaport
step records a nearest seaport; it never touches the airport fields, and only
appends to the log. -/
theorem seaportStep_success (env : Env) (p : Params) (seaFacs : List Facility)
    (origin : Coord) (st : StepState)
    (h : ∃ f ∈ selectCandidates env.hav origin seaFacs p.topn, ∃ v,
      env.router origin (fcoord f) = .ok v) :
    (seaportStep env p seaFacs origin st).outRec.nearestSeaport.isSome ∧
    (seaportStep env p seaFacs origin st).outRec.nearestAirport =
      st.outRec.nearestAirport ∧
    (seaportStep env p seaFacs origin st).outRec.distAirport =
      st.outRec.distAirport ∧
    ∃ extra, (seaportStep env p seaFacs origin st).steps = st.steps ++ extra := by
  have hsome := routeFold_best_of_success env.router p.pauseEvery origin "Seaport"
    (selectCandidates env.hav origin seaFacs p.topn)
    ⟨none, st.cache, st.apiCalls, [], []⟩ h
  simp only [seaportStep, nearestFacility, routeCandidates]
  cases hb : (routeFold env.router p.pauseEvery origin "Seaport"
      ⟨none, st.cache, st.apiCalls, [], []⟩
      (selectCandidates env.hav origin seaFacs p.topn)).best with
  | none => rw [hb] at hsome; exact absurd hsome (by simp)
  | some b =>
    exact ⟨rfl, rfl, rfl, ⟨_, rfl⟩⟩

/-- Each site contributes exactly one record and one log entry, in order,
carrying the site's (trimmed) name. -/
theorem batchFold_names (env : Env) (p : Params)
    (airFacs seaFacs : List Facility)
    (l : List (SiteRaw × Option ℚ × Option ℚ)) (st : BatchState) :
    (l.foldl (fun st sc =>
      let r := processSite env p airFacs seaFacs sc.1
        (sc.2.1.getD 0) (sc.2.2.getD 0) st.cache st.apiCalls
      (⟨st.recs ++ [r.outRec], st.logs ++ [r.log], r.cache, r.apiCalls⟩ : BatchState))
      st).recs.map (fun r => r.siteName) =
      st.recs.map (fun r => r.siteName) ++ l.map (fun sc => sc.1.name.trim) ∧
    (l.foldl (fun st sc =>
      let r := processSite env p airFacs seaFacs sc.1
        (sc.2.1.getD 0) (sc.2.2.getD 0) st.cache st.apiCalls
      (⟨st.recs ++ [r.outRec], st.logs ++ [r.log], r.cache, r.apiCalls⟩ : BatchState))
      st).logs.map (fun lg => lg.site) =
      st.logs.map (fun lg => lg.site) ++ l.map (fun sc => sc.1.name.trim) := by
  induction l generalizing st with
  | nil => simp
  | cons hd tl ih =>
    simp only [List.foldl_cons]
    have := ih ⟨st.recs ++ [(processSite env p airFacs seaFacs hd.1
      (hd.2.1.getD 0) (hd.2.2.getD 0) st.cache st.apiCalls).outRec],
      st.logs ++ [(processSite env p airFacs seaFacs hd.1
        (hd.2.1.getD 0) (hd.2.2.getD 0) st.cache st.apiCalls).log],
      (processSite env p airFacs seaFacs hd.1
        (hd.2.1.getD 0) (hd.2.2.getD 0) st.cache st.apiCalls).cache,
      (processSite env p airFacs seaFacs hd.1
        (hd.2.1.getD 0) (hd.2.2.getD 0) st.cache st.apiCalls).apiCalls⟩
    rw [this.1, this.2] at *
    constructor
    · rw [this.1]
      simp [processSite_siteName]
    · rw [this.2]
      simp [processSite_log_site]

/-- `C8`: a successful run produces exactly one result record and one log
record per input site, in input order (each carrying the site's name); and a
per-facility failure is logged without aborting the rest: when every
prefiltered airport candidate fails to route while some seaport candidate
succeeds, the final record still has its airport fields missing, its nearest
seaport populated (surviving all later steps, whatever their outcomes), and
one error entry per failed airport candidate in that site's log. -/
theorem batch_pipeline_isolation (env : Env) (p : Params) (w : World)
    (results : List OutRec) (logs : List LogRec) (calls : ℕ)
    (airFacs seaFacs : List Facility) (s : SiteRaw) (slat slon : ℚ)
    (cache0 : RouteCache) (api0 : ℕ) :
    ((process_batch env p w).1 = .ok (results, logs, calls) →
      results.map (fun r => r.siteName) = w.sites.map (fun x => x.name.trim) ∧
      logs.map (fun lg => lg.site) = w.sites.map (fun x => x.name.trim)) ∧
    ((∀ f ∈ selectCandidates env.hav ⟨slat, slon⟩ airFacs p.topn, ∃ e,
        (get_route env.router cache0 ⟨slat, slon⟩ (fcoord f)).result = .error e) →
      (∃ f ∈ selectCandidates env.hav ⟨slat, slon⟩ seaFacs p.topn, ∃ v,
        env.router ⟨slat, slon⟩ (fcoord f) = .ok v) →
      (processSite env p airFacs seaFacs s slat slon cache0 api0).outRec.nearestAirport = none ∧
      (processSite env p airFacs seaFacs s slat slon cache0 api0).outRec.distAirport = none ∧
      (processSite env p airFacs seaFacs s slat slon cache0 api0).outRec.nearestSeaport.isSome ∧
      (selectCandidates env.hav ⟨slat, slon⟩ airFacs p.topn).length ≤
        (((processSite env p airFacs seaFacs s slat slon cache0 api0).log.steps.filter
          LogStep.isErr)).length) := by
  constructor
  · intro hok
    simp only [process_batch] at hok
    split at hok
    · simp at hok
    · simp only [Except.ok.injEq, Prod.mk.injEq] at hok
      have hnames := batchFold_names env p (w.airports.map facOfRaw)
        (w.seaports.map facOfRaw)
        (w.sites.map (fun x => (x, toNumeric x.latCell, toNumeric x.lonCell)))
        ⟨[], [], w.routeCache, 0⟩
      rw [← hok.1, ← hok.2.1]
      rw [hnames.1, hnames.2]
      constructor <;> simp [List.map_map, Function.comp]
  · intro hA hS
    have hair := airportStep_all_fail env p airFacs ⟨slat, slon⟩
      ⟨initRec s slat slon, [], cache0, api0⟩ (by simpa using hA)
    have hsea := seaportStep_success env p seaFacs ⟨slat, slon⟩
      (airportStep env p airFacs ⟨slat, slon⟩ ⟨initRec s slat slon, [], cache0, api0⟩)
      (by
        obtain ⟨f, hf, v, hv⟩ := hS
        exact ⟨f, hf, v, hv⟩)
    have hff := processSite_facilityFields env p airFacs seaFacs s slat slon cache0 api0
    have hffs := congrArg facilityFields hair.1
    -- facility fields of the final record
    have h1 : (processSite env p airFacs seaFacs s slat slon cache0 api0).outRec.nearestAirport =
        (seaportStep env p seaFacs ⟨slat, slon⟩
          (airportStep env p airFacs ⟨slat, slon⟩
            ⟨initRec s slat slon, [], cache0, api0⟩)).outRec.nearestAirport := by
      have := congrArg (fun t => t.1) hff
      simpa [facilityFields] using this
    have h3 : (processSite env p airFacs seaFacs s slat slon cache0 api0).outRec.distAirport =
        (seaportStep env p seaFacs ⟨slat, slon⟩
          (airportStep env p airFacs ⟨slat, slon⟩
            ⟨initRec s slat slon, [], cache0, api0⟩)).outRec.distAirport := by
      have := congrArg (fun t => t.2.2.1) hff
      simpa [facilityFields] using this
    have h5 : (processSite env p airFacs seaFacs s slat slon cache0 api0).outRec.nearestSeaport =
        (seaportStep env p seaFacs ⟨slat, slon⟩
          (airportStep env p airFacs ⟨slat, slon⟩
            ⟨initRec s slat slon, [], cache0, api0⟩)).outRec.nearestSeaport := by
      have := congrArg (fun t => t.2.2.2.2.1) hff
      simpa [facilityFields] using this
    refine ⟨?_, ?_, ?_, ?_⟩
    · rw [h1, hsea.2.1, hair.1]
      rfl
    · rw [h3, hsea.2.2.1, hair.1]
      rfl
    · rw [h5]
      exact hsea.1
    · -- the log contains one error entry per failed airport candidate
      have hlogsteps : (processSite env p airFacs seaFacs s slat slon cache0 api0).log.steps =
          (cityStep env ⟨slat, slon⟩ (refStep env p ⟨slat, slon⟩
            (highwayStep env p ⟨slat, slon⟩ (seaportStep env p seaFacs ⟨slat, slon⟩
              (airportStep env p airFacs ⟨slat, slon⟩
                ⟨initRec s slat slon, [], cache0, api0⟩))))).steps := rfl
      obtain ⟨e5, he5⟩ := cityStep_steps env ⟨slat, slon⟩ (refStep env p ⟨slat, slon⟩
        (highwayStep env p ⟨slat, slon⟩ (seaportStep env p seaFacs ⟨slat, slon⟩
          (airportStep env p airFacs ⟨slat, slon⟩
            ⟨initRec s slat slon, [], cache0, api0⟩))))
      obtain ⟨e4, he4⟩ := refStep_steps env p ⟨slat, slon⟩
        (highwayStep env p ⟨slat, slon⟩ (seaportStep env p seaFacs ⟨slat, slon⟩
          (airportStep env p airFacs ⟨slat, slon⟩
            ⟨initRec s slat slon, [], cache0, api0⟩)))
      have he3 := highwayStep_steps env p ⟨slat, slon⟩ (seaportStep env p seaFacs ⟨slat, slon⟩
        (airportStep env p airFacs ⟨slat, slon⟩
          ⟨initRec s slat slon, [], cache0, api0⟩))
      obtain ⟨e2, he2⟩ := hsea.2.2.2
      rw [hlogsteps, he5, he4, he3, he2, hair.2.2.2]
      simp only [List.nil_append, List.append_assoc, List.filter_append,
        List.length_append]
      rw [filter_errorSteps]
      simp only [List.length_map]
      omega
  
/-- Witness for `C8`: an empty batch runs to one (empty) result list per
site list; and with one airport whose route fails and one seaport whose route
succeeds, the record has no airport, a seaport, and the airport error
logged. -/
theorem batch_pipeline_isolation_witness :
    ([] : List OutRec).map (fun r => r.siteName) =
      ([] : List SiteRaw).map (fun x => x.name.trim) ∧
    (processSite
      ⟨fun _ d => if d = ⟨3, 0⟩ then .error "no route" else .ok ⟨5, 6⟩,
        fun _ c => c.lat, fun _ => none, false, fun _ => none, false,
        fun _ => none, fun _ => none, [], fun _ => [], fun _ => [],
        fun _ => [], none, none, none, fun _ => ⟨"", "", "", "", "", ""⟩⟩
      ⟨1, false, 0, 0, "", 0, 0, true, false, false, false, 50⟩
      [⟨"A1", "", 3, 0⟩] [⟨"S1", "", 4, 0⟩]
      ⟨"P", "S", "Site1", .num 0, .num 0⟩ 0 0 [] 0).outRec.nearestAirport = none ∧
    (processSite
      ⟨fun _ d => if d = ⟨3, 0⟩ then .error "no route" else .ok ⟨5, 6⟩,
        fun _ c => c.lat, fun _ => none, false, fun _ => none, false,
        fun _ => none, fun _ => none, [], fun _ => [], fun _ => [],
        fun _ => [], none, none, none, fun _ => ⟨"", "", "", "", "", ""⟩⟩
      ⟨1, false, 0, 0, "", 0, 0, true, false, false, false, 50⟩
      [⟨"A1", "", 3, 0⟩] [⟨"S1", "", 4, 0⟩]
      ⟨"P", "S", "Site1", .num 0, .num 0⟩ 0 0 [] 0).outRec.distAirport = none ∧
    (processSite
      ⟨fun _ d => if d = ⟨3, 0⟩ then .error "no route" else .ok ⟨5, 6⟩,
        fun _ c => c.lat, fun _ => none, false, fun _ => none, false,
        fun _ => none, fun _ => none, [], fun _ => [], fun _ => [],
        fun _ => [], none, none, none, fun _ => ⟨"", "", "", "", "", ""⟩⟩
      ⟨1, false, 0, 0, "", 0, 0, true, false, false, false, 50⟩
      [⟨"A1", "", 3, 0⟩] [⟨"S1", "", 4, 0⟩]
      ⟨"P", "S", "Site1", .num 0, .num 0⟩ 0 0 [] 0).outRec.nearestSeaport.isSome ∧
    (selectCandidates (fun _ c => c.lat) ⟨0, 0⟩ [⟨"A1", "", 3, 0⟩] 1).length ≤
      (((processSite
      ⟨fun _ d => if d = ⟨3, 0⟩ then .error "no route" else .ok ⟨5, 6⟩,
        fun _ c => c.lat, fun _ => none, false, fun _ => none, false,
        fun _ => none, fun _ => none, [], fun _ => [], fun _ => [],
        fun _ => [], none, none, none, fun _ => ⟨"", "", "", "", "", ""⟩⟩
      ⟨1, false, 0, 0, "", 0, 0, true, false, false, false, 50⟩
      [⟨"A1", "", 3, 0⟩] [⟨"S1", "", 4, 0⟩]
      ⟨"P", "S", "Site1", .num 0, .num 0⟩ 0 0 [] 0).log.steps.filter LogStep.isErr)).length := by
  have hsel : selectCandidates (fun _ c => c.lat) ⟨0, 0⟩
      ([⟨"A1", "", 3, 0⟩] : List Facility) 1 = [⟨"A1", "", 3, 0⟩] := by
    simp [selectCandidates, prefilterIdx, argsort, List.range_succ, List.range_zero]
  have hselS : selectCandidates (fun _ c => c.lat) ⟨0, 0⟩
      ([⟨"S1", "", 4, 0⟩] : List Facility) 1 = [⟨"S1", "", 4, 0⟩] := by
    simp [selectCandidates, prefilterIdx, argsort, List.range_succ, List.range_zero]
  have h := batch_pipeline_isolation
    ⟨fun _ d => if d = ⟨3, 0⟩ then .error "no route" else .ok ⟨5, 6⟩,
        fun _ c => c.lat, fun _ => none, false, fun _ => none, false,
        fun _ => none, fun _ => none, [], fun _ => [], fun _ => [],
        fun _ => [], none, none, none, fun _ => ⟨"", "", "", "", "", ""⟩⟩
    ⟨1, false, 0, 0, "", 0, 0, true, false, false, false, 50⟩
    ⟨[], [], [], []⟩ [] [] 0
    [⟨"A1", "", 3, 0⟩] [⟨"S1", "", 4, 0⟩]
    ⟨"P", "S", "Site1", .num 0, .num 0⟩ 0 0 [] 0
  have h1 := (h.1 rfl).1
  have h2 := h.2
    (by
      rw [hsel]
      intro f hf
      rw [List.mem_singleton] at hf
      subst hf
      refine ⟨"no route", ?_⟩
      simp [get_route, cacheLookup, fcoord])
    (by
      rw [hselS]
      refine ⟨⟨"S1", "", 4, 0⟩, by simp, ⟨5, 6⟩, ?_⟩
      simp +decide [fcoord])
  exact ⟨h1, h2.1, h2.2.1, h2.2.2.1, h2.2.2.2⟩

/-- `C10`: `process_batch` never mutates the caller's frames: it copies them
and coerces the coordinate columns only on the copies, so the sites, airports
and seaports of the surrounding state are identical before and after a run
(whether the run validates successfully or raises); only the session route
cache is updated. -/
theorem process_batch_frames (env : Env) (p : Params) (w : World) :
    ((process_batch env p w).2).sites = w.sites ∧
    ((process_batch env p w).2).airports = w.airports ∧
    ((process_batch env p w).2).seaports = w.seaports := by
  simp only [process_batch]
  split <;> exact ⟨rfl, rfl, rfl⟩

end RoadDistance
